import Mathlib

/-! Lane-packed signed-byte score vectors.

A shallow embedding of `src/dp/score_vector_int8.h` of the DIAMOND protein
aligner: the two specialisations of `score_vector<int8_t>` (the 32-lane one
compiled when `ARCH_ID == 2`, the 16-lane one compiled under `__SSE4_1__`),
their `ScoreTraits`, and the `load_sv` helpers.

A vector register is a function from lane index to byte; a byte is its
unsigned value in `0..255`, and `int8_of_byte` gives the signed reading that
`int8_t` lanes have. Memory is a function from byte address to byte. Mutating
members return the new state of the receiver.
-/

/-! ## Bytes and C integer conversions -/

/-- One byte, as its unsigned value. -/
abbrev Byte := Fin 256

/-- Value of `SCHAR_MIN` from `<climits>`. -/
def SCHAR_MIN : Int := -128

/-- Value of `SCHAR_MAX` from `<climits>`. -/
def SCHAR_MAX : Int := 127

/-- The signed two's complement reading of a byte (the value of an `int8_t`). -/
def int8_of_byte (b : Byte) : Int :=
  if b.val < 128 then (b.val : Int) else (b.val : Int) - 256

/-- Conversion of an integer to an 8-bit type: the low 8 bits are kept. -/
def byte_of_int (x : Int) : Byte :=
  ⟨(x % 256).toNat, by omega⟩

/-- Signed saturation to 8 bits, `Saturate8` of the instruction reference. -/
def Saturate8 (x : Int) : Int :=
  if x > 127 then 127 else if x < -128 then -128 else x

/-- The clamp of the specification: `x` limited to the range `lo..hi`. -/
def clamp (x lo hi : Int) : Int :=
  if x < lo then lo else if x > hi then hi else x

/-! ## Vector registers and memory -/

/-- A 128-bit register as 16 byte lanes, lane 0 the least significant byte. -/
abbrev m128i := Fin 16 → Byte

/-- A 256-bit register as 32 byte lanes, lane 0 the least significant byte. -/
abbrev m256i := Fin 32 → Byte

/-- Byte-addressed memory (or the contents of a byte array, by index). -/
abbrev Mem := Nat → Byte

/-! ## Per-byte meaning of the instructions used -/

/-- One lane of a signed saturating byte addition. -/
def adds8 (a b : Byte) : Byte :=
  byte_of_int (Saturate8 (int8_of_byte a + int8_of_byte b))

/-- One lane of a signed saturating byte subtraction. -/
def subs8 (a b : Byte) : Byte :=
  byte_of_int (Saturate8 (int8_of_byte a - int8_of_byte b))

/-- One lane of a signed byte maximum. -/
def max8 (a b : Byte) : Byte :=
  if int8_of_byte a > int8_of_byte b then a else b

/-- One lane of a signed byte minimum. -/
def min8 (a b : Byte) : Byte :=
  if int8_of_byte a < int8_of_byte b then a else b

/-- One lane of a byte equality comparison: `0xFF` when equal, `0` otherwise. -/
def cmpeq8 (a b : Byte) : Byte :=
  if a = b then 255 else 0

/-- One lane of a variable blend: the second operand where the mask byte has
its top bit set, the first operand otherwise. -/
def blendv8 (a b mask : Byte) : Byte :=
  if 128 ≤ mask.val then b else a

/-- One 16-bit lane, given as low and high byte, shifted left by `imm8` with
zeros shifted in; the result is the 16-bit word. -/
def slli16 (lo hi : Byte) (imm8 : Nat) : Nat :=
  if imm8 % 256 > 15 then 0 else ((lo.val + 256 * hi.val) <<< (imm8 % 256)) % 65536

/-- Integer whose bit `i`, for `i < n`, is the top bit of byte lane `i`. -/
def movemask_bits : (n : Nat) → (Fin n → Byte) → Nat
  | 0, _ => 0
  | n + 1, a =>
    movemask_bits n (fun i => a i.castSucc) + (if 128 ≤ (a (Fin.last n)).val then 2 ^ n else 0)

/-- Conversion of a 32-bit pattern to `int`. -/
def int_of_bits32 (x : Nat) : Int :=
  if x % 4294967296 < 2147483648 then ((x % 4294967296 : Nat) : Int)
  else ((x % 4294967296 : Nat) : Int) - 4294967296

/-- Conversion of an `int` to `uint32_t`. -/
def uint32_of_int (x : Int) : Nat :=
  (x % 4294967296).toNat

/-! ## 128-bit instructions -/

def _mm_adds_epi8 (a b : m128i) : m128i :=
  fun i => adds8 (a i) (b i)

def _mm_subs_epi8 (a b : m128i) : m128i :=
  fun i => subs8 (a i) (b i)

def _mm_max_epi8 (a b : m128i) : m128i :=
  fun i => max8 (a i) (b i)

def _mm_min_epi8 (a b : m128i) : m128i :=
  fun i => min8 (a i) (b i)

def _mm_and_si128 (a b : m128i) : m128i :=
  fun i => a i &&& b i

def _mm_or_si128 (a b : m128i) : m128i :=
  fun i => a i ||| b i

def _mm_xor_si128 (a b : m128i) : m128i :=
  fun i => a i ^^^ b i

def _mm_cmpeq_epi8 (a b : m128i) : m128i :=
  fun i => cmpeq8 (a i) (b i)

def _mm_blendv_epi8 (a b mask : m128i) : m128i :=
  fun i => blendv8 (a i) (b i) (mask i)

/-- Shift of each of the eight 16-bit lanes; byte lanes `2k` and `2k + 1` are
the low and high byte of 16-bit lane `k`. -/
def _mm_slli_epi16 (a : m128i) (imm8 : Nat) : m128i :=
  fun i =>
    let w := slli16 (a ⟨2 * (i.val / 2), by have := i.isLt; omega⟩)
      (a ⟨2 * (i.val / 2) + 1, by have := i.isLt; omega⟩) imm8
    if i.val % 2 = 0 then ⟨w % 256, Nat.mod_lt _ (by decide)⟩
    else ⟨w / 256 % 256, Nat.mod_lt _ (by decide)⟩

/-- Byte shuffle: lane `i` is `0` when the top bit of the index byte `b i` is
set, and otherwise the byte of `a` selected by the low four bits of `b i`. -/
def _mm_shuffle_epi8 (a b : m128i) : m128i :=
  fun i => if 128 ≤ (b i).val then 0 else a ⟨(b i).val % 16, Nat.mod_lt _ (by decide)⟩

def _mm_movemask_epi8 (a : m128i) : Int :=
  int_of_bits32 (movemask_bits 16 a)

/-- Aligned 16-byte load from address `p`. -/
def _mm_load_si128 (mem : Mem) (p : Nat) : m128i :=
  fun i => mem (p + i.val)

/-- Unaligned 16-byte load from address `p`. -/
def _mm_loadu_si128 (mem : Mem) (p : Nat) : m128i :=
  fun i => mem (p + i.val)

/-- Unaligned 16-byte store to address `p`. -/
def _mm_storeu_si128 (mem : Mem) (p : Nat) (a : m128i) : Mem :=
  fun q => if h : p ≤ q ∧ q < p + 16 then a ⟨q - p, by omega⟩ else mem q

/-! ## 256-bit instructions -/

def _mm256_adds_epi8 (a b : m256i) : m256i :=
  fun i => adds8 (a i) (b i)

def _mm256_subs_epi8 (a b : m256i) : m256i :=
  fun i => subs8 (a i) (b i)

def _mm256_max_epi8 (a b : m256i) : m256i :=
  fun i => max8 (a i) (b i)

def _mm256_min_epi8 (a b : m256i) : m256i :=
  fun i => min8 (a i) (b i)

def _mm256_and_si256 (a b : m256i) : m256i :=
  fun i => a i &&& b i

def _mm256_or_si256 (a b : m256i) : m256i :=
  fun i => a i ||| b i

def _mm256_xor_si256 (a b : m256i) : m256i :=
  fun i => a i ^^^ b i

def _mm256_cmpeq_epi8 (a b : m256i) : m256i :=
  fun i => cmpeq8 (a i) (b i)

def _mm256_blendv_epi8 (a b mask : m256i) : m256i :=
  fun i => blendv8 (a i) (b i) (mask i)

/-- Shift of each of the sixteen 16-bit lanes. -/
def _mm256_slli_epi16 (a : m256i) (imm8 : Nat) : m256i :=
  fun i =>
    let w := slli16 (a ⟨2 * (i.val / 2), by have := i.isLt; omega⟩)
      (a ⟨2 * (i.val / 2) + 1, by have := i.isLt; omega⟩) imm8
    if i.val % 2 = 0 then ⟨w % 256, Nat.mod_lt _ (by decide)⟩
    else ⟨w / 256 % 256, Nat.mod_lt _ (by decide)⟩

/-- Byte shuffle within each 128-bit half: lane `i` is `0` when the top bit of
`b i` is set, and otherwise the byte of the same half of `a` selected by the
low four bits of `b i`. -/
def _mm256_shuffle_epi8 (a b : m256i) : m256i :=
  fun i =>
    if 128 ≤ (b i).val then 0
    else a ⟨16 * (i.val / 16) + (b i).val % 16, by have := i.isLt; omega⟩

def _mm256_movemask_epi8 (a : m256i) : Int :=
  int_of_bits32 (movemask_bits 32 a)

/-- Aligned 32-byte load from address `p`. -/
def _mm256_load_si256 (mem : Mem) (p : Nat) : m256i :=
  fun i => mem (p + i.val)

/-- Unaligned 32-byte load from address `p`. -/
def _mm256_loadu_si256 (mem : Mem) (p : Nat) : m256i :=
  fun i => mem (p + i.val)

/-- Unaligned 32-byte store to address `p`. -/
def _mm256_storeu_si256 (mem : Mem) (p : Nat) (a : m256i) : Mem :=
  fun q => if h : p ≤ q ∧ q < p + 32 then a ⟨q - p, by omega⟩ else mem q

/-! ## The broadcast wrappers of namespace `SIMD` -/

/-- Modelled from the spec: the wrapper `::SIMD::_mm_set1_epi8` is declared
outside this header; construct-from-scalar sets every lane to `x`. -/
def SIMD._mm_set1_epi8 (v : Byte) : m128i :=
  fun _ => v

/-- Modelled from the spec: the wrapper `::SIMD::_mm256_set1_epi8` is declared
outside this header; construct-from-scalar sets every lane to `x`. -/
def SIMD._mm256_set1_epi8 (v : Byte) : m256i :=
  fun _ => v

/-! ## The 16-lane specialisation (`__SSE4_1__`) -/

namespace ARCH_SSE4_1

/-- The struct `score_vector<int8_t>`: its one field is the register. -/
structure score_vector where
  data_ : m128i

namespace score_vector

/-- Default constructor `score_vector()`. -/
def ctor : score_vector :=
  ⟨SIMD._mm_set1_epi8 (byte_of_int SCHAR_MIN)⟩

/-- Constructor `score_vector(__m128i data)`. -/
def ctor_data (data : m128i) : score_vector :=
  ⟨data⟩

/-- Constructor `score_vector(int8_t x)`; `x` is given as its byte. -/
def ctor_int8 (x : Byte) : score_vector :=
  ⟨SIMD._mm_set1_epi8 x⟩

/-- Constructor `score_vector(int x)`; the argument is converted to `char`. -/
def ctor_int (x : Int) : score_vector :=
  ⟨SIMD._mm_set1_epi8 (byte_of_int x)⟩

/-- Constructor `score_vector(const int8_t* s)`. -/
def ctor_ptr (mem : Mem) (s : Nat) : score_vector :=
  ⟨_mm_loadu_si128 mem s⟩

/-- Constructor `score_vector(const uint8_t* s)`. -/
def ctor_uptr (mem : Mem) (s : Nat) : score_vector :=
  ⟨_mm_loadu_si128 mem s⟩

/-- Offset of `&score_matrix.matrix8()[a << 5]` in the table, `a` unsigned. -/
def row (a : Nat) : Nat :=
  (a <<< 5) % 4294967296

/-- Local `high_mask` of the row lookup constructor. -/
def high_mask (seq : m128i) : m128i :=
  _mm_slli_epi16 (_mm_and_si128 seq (SIMD._mm_set1_epi8 16)) 3

/-- Local `seq_low` of the row lookup constructor. -/
def seq_low (seq : m128i) : m128i :=
  _mm_or_si128 seq (high_mask seq)

/-- Local `seq_high` of the row lookup constructor. -/
def seq_high (seq : m128i) : m128i :=
  _mm_or_si128 seq (_mm_xor_si128 (high_mask seq) (SIMD._mm_set1_epi8 128))

/-- Local `r1` of the row lookup constructor: the first 16 bytes of the row. -/
def r1 (matrix8 : Mem) (a : Nat) : m128i :=
  _mm_load_si128 matrix8 (row a)

/-- Local `r2` of the row lookup constructor: the 16 bytes at `row + 1`. -/
def r2 (matrix8 : Mem) (a : Nat) : m128i :=
  _mm_load_si128 matrix8 (row a + 16)

/-- Local `s1` of the row lookup constructor. -/
def s1 (matrix8 : Mem) (a : Nat) (seq : m128i) : m128i :=
  _mm_shuffle_epi8 (r1 matrix8 a) (seq_low seq)

/-- Local `s2` of the row lookup constructor. -/
def s2 (matrix8 : Mem) (a : Nat) (seq : m128i) : m128i :=
  _mm_shuffle_epi8 (r2 matrix8 a) (seq_high seq)

/-- Constructor `score_vector(unsigned a, __m128i seq)`; `matrix8` is the
content of the table `score_matrix.matrix8()`. -/
def ctor_row (matrix8 : Mem) (a : Nat) (seq : m128i) : score_vector :=
  ⟨_mm_or_si128 (s1 matrix8 a seq) (s2 matrix8 a seq)⟩

/-- Member `operator+`. -/
def operator_plus (self rhs : score_vector) : score_vector :=
  ctor_data (_mm_adds_epi8 self.data_ rhs.data_)

/-- Member `operator-`. -/
def operator_minus (self rhs : score_vector) : score_vector :=
  ctor_data (_mm_subs_epi8 self.data_ rhs.data_)

/-- Member `operator+=`: the receiver afterwards. -/
def operator_plus_assign (self rhs : score_vector) : score_vector :=
  { self with data_ := _mm_adds_epi8 self.data_ rhs.data_ }

/-- Member `operator-=`: the receiver afterwards. -/
def operator_minus_assign (self rhs : score_vector) : score_vector :=
  { self with data_ := _mm_subs_epi8 self.data_ rhs.data_ }

/-- Member `operator&=`: the receiver afterwards. -/
def operator_and_assign (self rhs : score_vector) : score_vector :=
  { self with data_ := _mm_and_si128 self.data_ rhs.data_ }

/-- Member `operator++`: the receiver afterwards. -/
def operator_inc (self : score_vector) : score_vector :=
  { self with data_ := _mm_adds_epi8 self.data_ (SIMD._mm_set1_epi8 1) }

/-- Member `operator==`. -/
def operator_eq (self v : score_vector) : score_vector :=
  ctor_data (_mm_cmpeq_epi8 self.data_ v.data_)

/-- Member `operator[]`: the byte at offset `i` of the register, as `int`;
`none` when `i` is outside the register. -/
def operator_index (self : score_vector) (i : Nat) : Option Int :=
  if h : i < 16 then some ((self.data_ ⟨i, h⟩).val : Int) else none

/-- Member `set`: the receiver afterwards; `none` when `i` is outside the
register. -/
def set (self : score_vector) (i : Nat) (v : Byte) : Option score_vector :=
  if i < 16 then some { self with data_ := fun j => if j.val = i then v else self.data_ j }
  else none

/-- Member `max`: the receiver afterwards. -/
def max (self rhs : score_vector) : score_vector :=
  { self with data_ := _mm_max_epi8 self.data_ rhs.data_ }

/-- Member `min`: the receiver afterwards. -/
def min (self rhs : score_vector) : score_vector :=
  { self with data_ := _mm_min_epi8 self.data_ rhs.data_ }

/-- Member `store`: the memory afterwards. -/
def store (self : score_vector) (mem : Mem) (ptr : Nat) : Mem :=
  _mm_storeu_si128 mem ptr self.data_

end score_vector

/-- Friend `blend`. -/
def blend (v w mask : score_vector) : score_vector :=
  score_vector.ctor_data (_mm_blendv_epi8 v.data_ w.data_ mask.data_)

/-- Friend `cmp_mask`; the `int` of the instruction is returned as `uint32_t`. -/
def cmp_mask (v w : score_vector) : Nat :=
  uint32_of_int (_mm_movemask_epi8 (_mm_cmpeq_epi8 v.data_ w.data_))

/-- Friend `max`. -/
def max (lhs rhs : score_vector) : score_vector :=
  score_vector.ctor_data (_mm_max_epi8 lhs.data_ rhs.data_)

/-- Friend `min`. -/
def min (lhs rhs : score_vector) : score_vector :=
  score_vector.ctor_data (_mm_min_epi8 lhs.data_ rhs.data_)

namespace ScoreTraits

/-- Enumerator `CHANNELS`. -/
def CHANNELS : Nat := 16

/-- Function `TraceMask::make` on `uint32_t`. -/
def TraceMask.make (vmask hmask : Nat) : Nat :=
  ((vmask <<< 16) % 4294967296) ||| hmask

/-- Function `TraceMask::vmask`; the `int` shift result is returned as
`uint32_t`. -/
def TraceMask.vmask (channel : Nat) : Nat :=
  uint32_of_int (int_of_bits32 (1 <<< (channel + 16)))

/-- Function `TraceMask::hmask`; the `int` shift result is returned as
`uint32_t`. -/
def TraceMask.hmask (channel : Nat) : Nat :=
  uint32_of_int (int_of_bits32 (1 <<< channel))

/-- Function `zero`. -/
def zero : score_vector :=
  score_vector.ctor

/-- Function `max_score`, an `int8_t` given as its byte. -/
def max_score : Byte :=
  byte_of_int SCHAR_MAX

/-- Function `int_score`; the `int8_t` argument is given as its byte. -/
def int_score (s : Byte) : Int :=
  int8_of_byte s - SCHAR_MIN

/-- Function `max_int_score`. -/
def max_int_score : Int :=
  SCHAR_MAX - SCHAR_MIN

/-- Function `zero_score`, an `int8_t` given as its byte. -/
def zero_score : Byte :=
  byte_of_int SCHAR_MIN

/-- Function `saturate`, which leaves its argument as it is. -/
def saturate (v : score_vector) : score_vector :=
  v

end ScoreTraits

/-- Free function `load_sv(const int8_t*)`. -/
def load_sv (mem : Mem) (x : Nat) : score_vector :=
  score_vector.ctor_ptr mem x

/-- Free function `load_sv(const uint8_t*)`. -/
def load_sv_u (mem : Mem) (x : Nat) : score_vector :=
  score_vector.ctor_uptr mem x

end ARCH_SSE4_1

/-! ## The 32-lane specialisation (`ARCH_ID == 2`) -/

namespace ARCH_AVX2

/-- The struct `score_vector<int8_t>`: its one field is the register. -/
structure score_vector where
  data_ : m256i

namespace score_vector

/-- Default constructor `score_vector()`. -/
def ctor : score_vector :=
  ⟨SIMD._mm256_set1_epi8 (byte_of_int SCHAR_MIN)⟩

/-- Constructor `score_vector(__m256i data)`. -/
def ctor_data (data : m256i) : score_vector :=
  ⟨data⟩

/-- Constructor `score_vector(int8_t x)`; `x` is given as its byte. -/
def ctor_int8 (x : Byte) : score_vector :=
  ⟨SIMD._mm256_set1_epi8 x⟩

/-- Constructor `score_vector(int x)`; the argument is converted to `char`. -/
def ctor_int (x : Int) : score_vector :=
  ⟨SIMD._mm256_set1_epi8 (byte_of_int x)⟩

/-- Constructor `score_vector(const int8_t* s)`. -/
def ctor_ptr (mem : Mem) (s : Nat) : score_vector :=
  ⟨_mm256_loadu_si256 mem s⟩

/-- Constructor `score_vector(const uint8_t* s)`. -/
def ctor_uptr (mem : Mem) (s : Nat) : score_vector :=
  ⟨_mm256_loadu_si256 mem s⟩

/-- Offset of `&score_matrix.matrix8_low()[a << 5]` in its table, and of
`&score_matrix.matrix8_high()[a << 5]` in its table, `a` unsigned. -/
def row (a : Nat) : Nat :=
  (a <<< 5) % 4294967296

/-- Local `high_mask` of the row lookup constructor. -/
def high_mask (seq : m256i) : m256i :=
  _mm256_slli_epi16 (_mm256_and_si256 seq (SIMD._mm256_set1_epi8 16)) 3

/-- Local `seq_low` of the row lookup constructor. -/
def seq_low (seq : m256i) : m256i :=
  _mm256_or_si256 seq (high_mask seq)

/-- Local `seq_high` of the row lookup constructor. -/
def seq_high (seq : m256i) : m256i :=
  _mm256_or_si256 seq (_mm256_xor_si256 (high_mask seq) (SIMD._mm256_set1_epi8 128))

/-- Local `r1` of the row lookup constructor, loaded from `row_lo`. -/
def r1 (matrix8_low : Mem) (a : Nat) : m256i :=
  _mm256_load_si256 matrix8_low (row a)

/-- Local `r2` of the row lookup constructor, loaded from `row_hi`. -/
def r2 (matrix8_high : Mem) (a : Nat) : m256i :=
  _mm256_load_si256 matrix8_high (row a)

/-- Local `s1` of the row lookup constructor. -/
def s1 (matrix8_low : Mem) (a : Nat) (seq : m256i) : m256i :=
  _mm256_shuffle_epi8 (r1 matrix8_low a) (seq_low seq)

/-- Local `s2` of the row lookup constructor. -/
def s2 (matrix8_high : Mem) (a : Nat) (seq : m256i) : m256i :=
  _mm256_shuffle_epi8 (r2 matrix8_high a) (seq_high seq)

/-- Constructor `score_vector(unsigned a, __m256i seq)`; `matrix8_low` and
`matrix8_high` are the contents of the tables `score_matrix.matrix8_low()` and
`score_matrix.matrix8_high()`. -/
def ctor_row (matrix8_low matrix8_high : Mem) (a : Nat) (seq : m256i) : score_vector :=
  ⟨_mm256_or_si256 (s1 matrix8_low a seq) (s2 matrix8_high a seq)⟩

/-- Member `operator+`. -/
def operator_plus (self rhs : score_vector) : score_vector :=
  ctor_data (_mm256_adds_epi8 self.data_ rhs.data_)

/-- Member `operator-`. -/
def operator_minus (self rhs : score_vector) : score_vector :=
  ctor_data (_mm256_subs_epi8 self.data_ rhs.data_)

/-- Member `operator+=`: the receiver afterwards. -/
def operator_plus_assign (self rhs : score_vector) : score_vector :=
  { self with data_ := _mm256_adds_epi8 self.data_ rhs.data_ }

/-- Member `operator-=`: the receiver afterwards. -/
def operator_minus_assign (self rhs : score_vector) : score_vector :=
  { self with data_ := _mm256_subs_epi8 self.data_ rhs.data_ }

/-- Member `operator&=`: the receiver afterwards. -/
def operator_and_assign (self rhs : score_vector) : score_vector :=
  { self with data_ := _mm256_and_si256 self.data_ rhs.data_ }

/-- Member `operator++`: the receiver afterwards. -/
def operator_inc (self : score_vector) : score_vector :=
  { self with data_ := _mm256_adds_epi8 self.data_ (SIMD._mm256_set1_epi8 1) }

/-- Member `operator==`. -/
def operator_eq (self v : score_vector) : score_vector :=
  ctor_data (_mm256_cmpeq_epi8 self.data_ v.data_)

/-- Member `operator[]`: the byte at offset `i` of the register, as `int`;
`none` when `i` is outside the register. -/
def operator_index (self : score_vector) (i : Nat) : Option Int :=
  if h : i < 32 then some ((self.data_ ⟨i, h⟩).val : Int) else none

/-- Member `set`: the receiver afterwards; `none` when `i` is outside the
register. -/
def set (self : score_vector) (i : Nat) (v : Byte) : Option score_vector :=
  if i < 32 then some { self with data_ := fun j => if j.val = i then v else self.data_ j }
  else none

/-- Member `max`: the receiver afterwards. -/
def max (self rhs : score_vector) : score_vector :=
  { self with data_ := _mm256_max_epi8 self.data_ rhs.data_ }

/-- Member `min`: the receiver afterwards. -/
def min (self rhs : score_vector) : score_vector :=
  { self with data_ := _mm256_min_epi8 self.data_ rhs.data_ }

/-- Member `store`: the memory afterwards. -/
def store (self : score_vector) (mem : Mem) (ptr : Nat) : Mem :=
  _mm256_storeu_si256 mem ptr self.data_

end score_vector

/-- Friend `blend`. -/
def blend (v w mask : score_vector) : score_vector :=
  score_vector.ctor_data (_mm256_blendv_epi8 v.data_ w.data_ mask.data_)

/-- Friend `cmp_mask`; the `int` of the instruction is cast to `uint32_t`. -/
def cmp_mask (v w : score_vector) : Nat :=
  uint32_of_int (_mm256_movemask_epi8 (_mm256_cmpeq_epi8 v.data_ w.data_))

/-- Friend `max`. -/
def max (lhs rhs : score_vector) : score_vector :=
  score_vector.ctor_data (_mm256_max_epi8 lhs.data_ rhs.data_)

/-- Friend `min`. -/
def min (lhs rhs : score_vector) : score_vector :=
  score_vector.ctor_data (_mm256_min_epi8 lhs.data_ rhs.data_)

namespace ScoreTraits

/-- Enumerator `CHANNELS`. -/
def CHANNELS : Nat := 32

/-- Function `TraceMask::make`: both `uint32_t` arguments are widened to
`uint64_t`. -/
def TraceMask.make (vmask hmask : Nat) : Nat :=
  ((vmask <<< 32) % 18446744073709551616) ||| hmask

/-- Function `TraceMask::vmask`, a shift of the `uint64_t` value 1. -/
def TraceMask.vmask (channel : Nat) : Nat :=
  (1 <<< (channel + 32)) % 18446744073709551616

/-- Function `TraceMask::hmask`, a shift of the `uint64_t` value 1. -/
def TraceMask.hmask (channel : Nat) : Nat :=
  (1 <<< channel) % 18446744073709551616

/-- Function `zero`. -/
def zero : score_vector :=
  score_vector.ctor

/-- Function `max_score`, an `int8_t` given as its byte. -/
def max_score : Byte :=
  byte_of_int SCHAR_MAX

/-- Function `int_score`; the `int8_t` argument is given as its byte. -/
def int_score (s : Byte) : Int :=
  int8_of_byte s - SCHAR_MIN

/-- Function `max_int_score`. -/
def max_int_score : Int :=
  SCHAR_MAX - SCHAR_MIN

/-- Function `zero_score`, an `int8_t` given as its byte. -/
def zero_score : Byte :=
  byte_of_int SCHAR_MIN

/-- Function `saturate`, which leaves its argument as it is. -/
def saturate (v : score_vector) : score_vector :=
  v

end ScoreTraits

/-- Free function `load_sv(const int8_t*)`. -/
def load_sv (mem : Mem) (x : Nat) : score_vector :=
  score_vector.ctor_ptr mem x

/-- Free function `load_sv(const uint8_t*)`. -/
def load_sv_u (mem : Mem) (x : Nat) : score_vector :=
  score_vector.ctor_uptr mem x

end ARCH_AVX2

/-! ## The lanes present in both specialisations -/

/-- The 16-lane register formed from lanes 0..15 of a 32-lane register, as
the specification's cross-variant comparison has it. -/
def low_lanes (x : m256i) : m128i :=
  fun i => x ⟨i.val, Nat.lt_trans i.isLt (by decide)⟩

/-- The 16-lane score vector formed from lanes 0..15 of a 32-lane score
vector, as the specification's cross-variant comparison has it. -/
def narrow_of_wide (V : ARCH_AVX2.score_vector) : ARCH_SSE4_1.score_vector :=
  ⟨low_lanes V.data_⟩

/-! ## Bytes: signed reading, saturation, maximum and minimum -/

theorem int8_of_byte_range (b : Byte) : -128 ≤ int8_of_byte b ∧ int8_of_byte b ≤ 127 := by
  unfold int8_of_byte
  split_ifs <;> omega

theorem int8_of_byte_of_int (x : Int) (h1 : -128 ≤ x) (h2 : x ≤ 127) :
    int8_of_byte (byte_of_int x) = x := by
  unfold int8_of_byte byte_of_int
  simp only []
  split_ifs <;> omega

theorem byte_of_int_int8 (b : Byte) : byte_of_int (int8_of_byte b) = b := by
  unfold int8_of_byte byte_of_int
  apply Fin.ext
  simp only []
  split_ifs <;> omega

theorem int8_of_byte_inj (a b : Byte) (h : int8_of_byte a = int8_of_byte b) : a = b := by
  rw [← byte_of_int_int8 a, ← byte_of_int_int8 b, h]

theorem adds8_int8 (a b : Byte) :
    int8_of_byte (adds8 a b) = clamp (int8_of_byte a + int8_of_byte b) (-128) 127 := by
  have ha := int8_of_byte_range a
  have hb := int8_of_byte_range b
  unfold adds8 Saturate8 clamp
  split_ifs <;> rw [int8_of_byte_of_int] <;> omega

theorem subs8_int8 (a b : Byte) :
    int8_of_byte (subs8 a b) = clamp (int8_of_byte a - int8_of_byte b) (-128) 127 := by
  have ha := int8_of_byte_range a
  have hb := int8_of_byte_range b
  unfold subs8 Saturate8 clamp
  split_ifs <;> rw [int8_of_byte_of_int] <;> omega

theorem byte_of_int_ne_of_int8_ne (r : Byte) (s : Int)
    (h : int8_of_byte r ≠ int8_of_byte (byte_of_int s)) : r ≠ byte_of_int s := by
  intro e
  exact h (by rw [e])

theorem adds8_no_wrap (a b : Byte)
    (h : ¬ (-128 ≤ int8_of_byte a + int8_of_byte b ∧ int8_of_byte a + int8_of_byte b ≤ 127)) :
    adds8 a b ≠ byte_of_int (int8_of_byte a + int8_of_byte b) := by
  apply byte_of_int_ne_of_int8_ne
  rw [adds8_int8]
  have ha := int8_of_byte_range a
  have hb := int8_of_byte_range b
  have hs : -256 ≤ int8_of_byte a + int8_of_byte b ∧ int8_of_byte a + int8_of_byte b ≤ 254 := by
    omega
  generalize int8_of_byte a + int8_of_byte b = s at *
  unfold clamp int8_of_byte byte_of_int
  simp only []
  split_ifs <;> omega

theorem subs8_no_wrap (a b : Byte)
    (h : ¬ (-128 ≤ int8_of_byte a - int8_of_byte b ∧ int8_of_byte a - int8_of_byte b ≤ 127)) :
    subs8 a b ≠ byte_of_int (int8_of_byte a - int8_of_byte b) := by
  apply byte_of_int_ne_of_int8_ne
  rw [subs8_int8]
  have ha := int8_of_byte_range a
  have hb := int8_of_byte_range b
  have hs : -255 ≤ int8_of_byte a - int8_of_byte b ∧ int8_of_byte a - int8_of_byte b ≤ 255 := by
    omega
  generalize int8_of_byte a - int8_of_byte b = s at *
  unfold clamp int8_of_byte byte_of_int
  simp only []
  split_ifs <;> omega

/-! ## C1: saturating addition and subtraction -/

/-- C1: in both variants every lane of `a + b`, and of the receiver after
`a += b`, reads as the integer sum of the two signed lanes clamped to
`-128..127`; every lane of `a - b`, and of the receiver after `a -= b`, reads
as the integer difference clamped to `-128..127`; and whenever the exact sum
or difference lies outside `-128..127` the lane is not the wrapped (mod 256)
value. -/
theorem C1_saturating_add_sub (a b : ARCH_SSE4_1.score_vector) (i : Fin 16)
    (A B : ARCH_AVX2.score_vector) (j : Fin 32) :
    (int8_of_byte ((a.operator_plus b).data_ i)
        = clamp (int8_of_byte (a.data_ i) + int8_of_byte (b.data_ i)) (-128) 127
      ∧ int8_of_byte ((a.operator_minus b).data_ i)
        = clamp (int8_of_byte (a.data_ i) - int8_of_byte (b.data_ i)) (-128) 127
      ∧ int8_of_byte ((a.operator_plus_assign b).data_ i)
        = clamp (int8_of_byte (a.data_ i) + int8_of_byte (b.data_ i)) (-128) 127
      ∧ int8_of_byte ((a.operator_minus_assign b).data_ i)
        = clamp (int8_of_byte (a.data_ i) - int8_of_byte (b.data_ i)) (-128) 127)
    ∧ (int8_of_byte ((A.operator_plus B).data_ j)
        = clamp (int8_of_byte (A.data_ j) + int8_of_byte (B.data_ j)) (-128) 127
      ∧ int8_of_byte ((A.operator_minus B).data_ j)
        = clamp (int8_of_byte (A.data_ j) - int8_of_byte (B.data_ j)) (-128) 127
      ∧ int8_of_byte ((A.operator_plus_assign B).data_ j)
        = clamp (int8_of_byte (A.data_ j) + int8_of_byte (B.data_ j)) (-128) 127
      ∧ int8_of_byte ((A.operator_minus_assign B).data_ j)
        = clamp (int8_of_byte (A.data_ j) - int8_of_byte (B.data_ j)) (-128) 127)
    ∧ (¬ (-128 ≤ int8_of_byte (a.data_ i) + int8_of_byte (b.data_ i)
          ∧ int8_of_byte (a.data_ i) + int8_of_byte (b.data_ i) ≤ 127) →
        (a.operator_plus b).data_ i
          ≠ byte_of_int (int8_of_byte (a.data_ i) + int8_of_byte (b.data_ i))
        ∧ (a.operator_plus_assign b).data_ i
          ≠ byte_of_int (int8_of_byte (a.data_ i) + int8_of_byte (b.data_ i)))
    ∧ (¬ (-128 ≤ int8_of_byte (a.data_ i) - int8_of_byte (b.data_ i)
          ∧ int8_of_byte (a.data_ i) - int8_of_byte (b.data_ i) ≤ 127) →
        (a.operator_minus b).data_ i
          ≠ byte_of_int (int8_of_byte (a.data_ i) - int8_of_byte (b.data_ i))
        ∧ (a.operator_minus_assign b).data_ i
          ≠ byte_of_int (int8_of_byte (a.data_ i) - int8_of_byte (b.data_ i)))
    ∧ (¬ (-128 ≤ int8_of_byte (A.data_ j) + int8_of_byte (B.data_ j)
          ∧ int8_of_byte (A.data_ j) + int8_of_byte (B.data_ j) ≤ 127) →
        (A.operator_plus B).data_ j
          ≠ byte_of_int (int8_of_byte (A.data_ j) + int8_of_byte (B.data_ j))
        ∧ (A.operator_plus_assign B).data_ j
          ≠ byte_of_int (int8_of_byte (A.data_ j) + int8_of_byte (B.data_ j)))
    ∧ (¬ (-128 ≤ int8_of_byte (A.data_ j) - int8_of_byte (B.data_ j)
          ∧ int8_of_byte (A.data_ j) - int8_of_byte (B.data_ j) ≤ 127) →
        (A.operator_minus B).data_ j
          ≠ byte_of_int (int8_of_byte (A.data_ j) - int8_of_byte (B.data_ j))
        ∧ (A.operator_minus_assign B).data_ j
          ≠ byte_of_int (int8_of_byte (A.data_ j) - int8_of_byte (B.data_ j))) := by
  refine ⟨⟨adds8_int8 _ _, subs8_int8 _ _, adds8_int8 _ _, subs8_int8 _ _⟩,
    ⟨adds8_int8 _ _, subs8_int8 _ _, adds8_int8 _ _, subs8_int8 _ _⟩, ?_, ?_, ?_, ?_⟩
  · intro h
    exact ⟨adds8_no_wrap _ _ h, adds8_no_wrap _ _ h⟩
  · intro h
    exact ⟨subs8_no_wrap _ _ h, subs8_no_wrap _ _ h⟩
  · intro h
    exact ⟨adds8_no_wrap _ _ h, adds8_no_wrap _ _ h⟩
  · intro h
    exact ⟨subs8_no_wrap _ _ h, subs8_no_wrap _ _ h⟩

/-- Witness for C1: 100 + 100 saturates to 127 in the 16-lane variant and is
not the wrapped byte 200; -100 - 100 saturates to -128 in the 32-lane
variant and is not the wrapped byte 56. -/
theorem C1_saturating_add_sub_witness :
    (int8_of_byte (((ARCH_SSE4_1.score_vector.ctor_int 100).operator_plus
        (ARCH_SSE4_1.score_vector.ctor_int 100)).data_ 0) = 127
      ∧ ((ARCH_SSE4_1.score_vector.ctor_int 100).operator_plus
        (ARCH_SSE4_1.score_vector.ctor_int 100)).data_ 0 ≠ 200)
    ∧ (int8_of_byte (((ARCH_AVX2.score_vector.ctor_int (-100)).operator_minus
        (ARCH_AVX2.score_vector.ctor_int 100)).data_ 31) = -128
      ∧ ((ARCH_AVX2.score_vector.ctor_int (-100)).operator_minus
        (ARCH_AVX2.score_vector.ctor_int 100)).data_ 31 ≠ 56) := by
  have h := C1_saturating_add_sub (ARCH_SSE4_1.score_vector.ctor_int 100)
    (ARCH_SSE4_1.score_vector.ctor_int 100) 0 (ARCH_AVX2.score_vector.ctor_int (-100))
    (ARCH_AVX2.score_vector.ctor_int 100) 31
  exact ⟨⟨h.1.1.trans (by decide), (h.2.2.1 (by decide)).1⟩,
    ⟨h.2.1.2.1.trans (by decide), (h.2.2.2.2.2 (by decide)).1⟩⟩

/-! ## Row lookup: the index encoding -/

set_option maxRecDepth 100000 in
theorem and16_val (c : Byte) :
    (c &&& 16).val = if c.val % 32 < 16 then 0 else 16 := by
  revert c
  decide

set_option maxRecDepth 100000 in
theorem or_zero_byte (c : Byte) : c ||| 0 = c := by
  revert c
  decide

set_option maxRecDepth 100000 in
theorem zero_or_byte (c : Byte) : 0 ||| c = c := by
  revert c
  decide

set_option maxRecDepth 100000 in
theorem or_top_bit (c : Byte) : 128 ≤ (c ||| 128).val := by
  revert c
  decide

theorem slli16_three (lo hi : Byte) (hlo : lo.val ≤ 16) :
    slli16 lo hi 3 % 256 = lo.val * 8 % 256
      ∧ slli16 lo hi 3 / 256 % 256 = hi.val * 8 % 256 := by
  have h1 := lo.isLt
  have h2 := hi.isLt
  unfold slli16
  have e : (2 : Nat) ^ (3 % 256) = 8 := by norm_num
  rw [if_neg (by decide), Nat.shiftLeft_eq, e]
  omega

theorem and16_le (c : Byte) : (c &&& 16).val ≤ 16 := by
  rw [and16_val]
  split_ifs <;> omega

theorem high_mask_byte (c : Byte) (h : Byte) (hh : h.val = (c &&& 16).val * 8 % 256) :
    h = if c.val % 32 < 16 then 0 else 128 := by
  apply Fin.ext
  rw [hh, and16_val]
  split_ifs <;> rfl

theorem high_mask_lane_sse (seq : m128i) (i : Fin 16) :
    ARCH_SSE4_1.score_vector.high_mask seq i = if (seq i).val % 32 < 16 then 0 else 128 := by
  apply high_mask_byte
  have hi := i.isLt
  unfold ARCH_SSE4_1.score_vector.high_mask _mm_slli_epi16 _mm_and_si128 SIMD._mm_set1_epi8
  simp only []
  by_cases hp : i.val % 2 = 0
  · have e : (⟨2 * (i.val / 2), by omega⟩ : Fin 16) = i := Fin.ext (by simp only []; omega)
    rw [if_pos hp]
    simp only [e]
    exact (slli16_three _ _ (and16_le _)).1
  · have e : (⟨2 * (i.val / 2) + 1, by omega⟩ : Fin 16) = i := Fin.ext (by simp only []; omega)
    rw [if_neg hp]
    simp only [e]
    exact (slli16_three _ _ (and16_le _)).2

theorem seq_low_lane_sse (seq : m128i) (i : Fin 16) :
    ARCH_SSE4_1.score_vector.seq_low seq i
      = if (seq i).val % 32 < 16 then seq i else seq i ||| 128 := by
  unfold ARCH_SSE4_1.score_vector.seq_low _mm_or_si128
  rw [high_mask_lane_sse]
  split_ifs
  · exact or_zero_byte _
  · rfl

theorem seq_high_lane_sse (seq : m128i) (i : Fin 16) :
    ARCH_SSE4_1.score_vector.seq_high seq i
      = if (seq i).val % 32 < 16 then seq i ||| 128 else seq i := by
  unfold ARCH_SSE4_1.score_vector.seq_high _mm_or_si128 _mm_xor_si128 SIMD._mm_set1_epi8
  rw [high_mask_lane_sse]
  split_ifs
  · rfl
  · exact or_zero_byte _

theorem s1_lane_sse (matrix8 : Mem) (a : Nat) (seq : m128i) (i : Fin 16) :
    ARCH_SSE4_1.score_vector.s1 matrix8 a seq i
      = if (seq i).val < 128 ∧ (seq i).val % 32 < 16
        then matrix8 (ARCH_SSE4_1.score_vector.row a + (seq i).val % 16) else 0 := by
  unfold ARCH_SSE4_1.score_vector.s1 _mm_shuffle_epi8 ARCH_SSE4_1.score_vector.r1 _mm_load_si128
  simp only []
  rw [seq_low_lane_sse]
  have ht := or_top_bit (seq i)
  split_ifs <;> first | rfl | omega

theorem s2_lane_sse (matrix8 : Mem) (a : Nat) (seq : m128i) (i : Fin 16) :
    ARCH_SSE4_1.score_vector.s2 matrix8 a seq i
      = if (seq i).val < 128 ∧ ¬ (seq i).val % 32 < 16
        then matrix8 (ARCH_SSE4_1.score_vector.row a + 16 + (seq i).val % 16) else 0 := by
  unfold ARCH_SSE4_1.score_vector.s2 _mm_shuffle_epi8 ARCH_SSE4_1.score_vector.r2 _mm_load_si128
  simp only []
  rw [seq_high_lane_sse]
  have ht := or_top_bit (seq i)
  split_ifs <;> first | rfl | omega

theorem high_mask_lane_avx2 (seq : m256i) (i : Fin 32) :
    ARCH_AVX2.score_vector.high_mask seq i = if (seq i).val % 32 < 16 then 0 else 128 := by
  apply high_mask_byte
  have hi := i.isLt
  unfold ARCH_AVX2.score_vector.high_mask _mm256_slli_epi16 _mm256_and_si256 SIMD._mm256_set1_epi8
  simp only []
  by_cases hp : i.val % 2 = 0
  · have e : (⟨2 * (i.val / 2), by omega⟩ : Fin 32) = i := Fin.ext (by simp only []; omega)
    rw [if_pos hp]
    simp only [e]
    exact (slli16_three _ _ (and16_le _)).1
  · have e : (⟨2 * (i.val / 2) + 1, by omega⟩ : Fin 32) = i := Fin.ext (by simp only []; omega)
    rw [if_neg hp]
    simp only [e]
    exact (slli16_three _ _ (and16_le _)).2

theorem seq_low_lane_avx2 (seq : m256i) (i : Fin 32) :
    ARCH_AVX2.score_vector.seq_low seq i
      = if (seq i).val % 32 < 16 then seq i else seq i ||| 128 := by
  unfold ARCH_AVX2.score_vector.seq_low _mm256_or_si256
  rw [high_mask_lane_avx2]
  split_ifs
  · exact or_zero_byte _
  · rfl

theorem seq_high_lane_avx2 (seq : m256i) (i : Fin 32) :
    ARCH_AVX2.score_vector.seq_high seq i
      = if (seq i).val % 32 < 16 then seq i ||| 128 else seq i := by
  unfold ARCH_AVX2.score_vector.seq_high _mm256_or_si256 _mm256_xor_si256 SIMD._mm256_set1_epi8
  rw [high_mask_lane_avx2]
  split_ifs
  · rfl
  · exact or_zero_byte _

theorem s1_lane_avx2 (matrix8_low : Mem) (a : Nat) (seq : m256i) (i : Fin 32) :
    ARCH_AVX2.score_vector.s1 matrix8_low a seq i
      = if (seq i).val < 128 ∧ (seq i).val % 32 < 16
        then matrix8_low (ARCH_AVX2.score_vector.row a + (16 * (i.val / 16) + (seq i).val % 16))
        else 0 := by
  unfold ARCH_AVX2.score_vector.s1 _mm256_shuffle_epi8 ARCH_AVX2.score_vector.r1 _mm256_load_si256
  simp only []
  rw [seq_low_lane_avx2]
  have ht := or_top_bit (seq i)
  split_ifs <;> first | rfl | omega

theorem s2_lane_avx2 (matrix8_high : Mem) (a : Nat) (seq : m256i) (i : Fin 32) :
    ARCH_AVX2.score_vector.s2 matrix8_high a seq i
      = if (seq i).val < 128 ∧ ¬ (seq i).val % 32 < 16
        then matrix8_high (ARCH_AVX2.score_vector.row a + (16 * (i.val / 16) + (seq i).val % 16))
        else 0 := by
  unfold ARCH_AVX2.score_vector.s2 _mm256_shuffle_epi8 ARCH_AVX2.score_vector.r2 _mm256_load_si256
  simp only []
  rw [seq_high_lane_avx2]
  have ht := or_top_bit (seq i)
  split_ifs <;> first | rfl | omega

theorem row_of_lt (r : Nat) (hr : r < 32) : (r <<< 5) % 4294967296 = r <<< 5 := by
  rw [Nat.shiftLeft_eq]
  omega

/-! ## C2: the 16-lane row lookup -/

/-- C2: for a row `r < 32` and a lane `i` whose code `seq i` is below 32, lane
`i` of `score_vector(r, seq)` is the table byte `matrix8()[(r << 5) + seq i]`,
whatever the other lanes of `seq` hold; for a code below 16 the shuffle result
`s1` is that byte and `s2` is 0, for a code from 16 to 31 `s1` is 0 and `s2`
is that byte, and the lane is the OR of the two; any `seq2` with the same
code in lane `i` gives the same lane `i`. -/
theorem C2_narrow_row_lookup (matrix8 : Mem) (r : Nat) (hr : r < 32) (seq : m128i)
    (i : Fin 16) (hc : (seq i).val < 32) :
    (ARCH_SSE4_1.score_vector.ctor_row matrix8 r seq).data_ i
        = matrix8 ((r <<< 5) + (seq i).val)
    ∧ ((seq i).val < 16 →
        ARCH_SSE4_1.score_vector.s1 matrix8 r seq i = matrix8 ((r <<< 5) + (seq i).val)
        ∧ ARCH_SSE4_1.score_vector.s2 matrix8 r seq i = 0)
    ∧ (16 ≤ (seq i).val →
        ARCH_SSE4_1.score_vector.s1 matrix8 r seq i = 0
        ∧ ARCH_SSE4_1.score_vector.s2 matrix8 r seq i = matrix8 ((r <<< 5) + (seq i).val))
    ∧ (ARCH_SSE4_1.score_vector.ctor_row matrix8 r seq).data_ i
        = ARCH_SSE4_1.score_vector.s1 matrix8 r seq i
          ||| ARCH_SSE4_1.score_vector.s2 matrix8 r seq i
    ∧ (∀ seq2 : m128i, seq2 i = seq i →
        (ARCH_SSE4_1.score_vector.ctor_row matrix8 r seq2).data_ i
          = (ARCH_SSE4_1.score_vector.ctor_row matrix8 r seq).data_ i) := by
  have hrow : ARCH_SSE4_1.score_vector.row r = r <<< 5 := row_of_lt r hr
  have hlow : (seq i).val < 16 →
      ARCH_SSE4_1.score_vector.s1 matrix8 r seq i = matrix8 ((r <<< 5) + (seq i).val)
      ∧ ARCH_SSE4_1.score_vector.s2 matrix8 r seq i = 0 := by
    intro h
    have e : (seq i).val % 16 = (seq i).val := by omega
    rw [s1_lane_sse, s2_lane_sse, hrow, e,
      if_pos (by omega), if_neg (by omega)]
    exact ⟨rfl, rfl⟩
  have hhigh : 16 ≤ (seq i).val →
      ARCH_SSE4_1.score_vector.s1 matrix8 r seq i = 0
      ∧ ARCH_SSE4_1.score_vector.s2 matrix8 r seq i = matrix8 ((r <<< 5) + (seq i).val) := by
    intro h
    have e : r <<< 5 + 16 + (seq i).val % 16 = r <<< 5 + (seq i).val := by omega
    rw [s1_lane_sse, s2_lane_sse, hrow, e,
      if_neg (by omega), if_pos (by omega)]
    exact ⟨rfl, rfl⟩
  have hor : (ARCH_SSE4_1.score_vector.ctor_row matrix8 r seq).data_ i
      = ARCH_SSE4_1.score_vector.s1 matrix8 r seq i
        ||| ARCH_SSE4_1.score_vector.s2 matrix8 r seq i := rfl
  refine ⟨?_, hlow, hhigh, hor, ?_⟩
  · rw [hor]
    by_cases h : (seq i).val < 16
    · rw [(hlow h).1, (hlow h).2]
      exact or_zero_byte _
    · rw [(hhigh (by omega)).1, (hhigh (by omega)).2]
      exact zero_or_byte _
  · intro seq2 h2
    show ARCH_SSE4_1.score_vector.s1 matrix8 r seq2 i
        ||| ARCH_SSE4_1.score_vector.s2 matrix8 r seq2 i
      = ARCH_SSE4_1.score_vector.s1 matrix8 r seq i
        ||| ARCH_SSE4_1.score_vector.s2 matrix8 r seq i
    rw [s1_lane_sse, s2_lane_sse, s1_lane_sse, s2_lane_sse, h2]

/-- Witness for C2: row 5 of the table whose byte at index `k` is `k mod 256`,
with every lane holding code 17, read at lane 3. -/
theorem C2_narrow_row_lookup_witness :
    5 < 32 ∧ ((17 : Byte)).val < 32
    ∧ (ARCH_SSE4_1.score_vector.ctor_row (fun k => byte_of_int k) 5 (fun _ => 17)).data_ 3
        = byte_of_int 177 :=
  ⟨by decide, by decide,
    (C2_narrow_row_lookup (fun k => byte_of_int k) 5 (by decide) (fun _ => 17) 3 (by decide)).1⟩

/-! ## C3: the 32-lane row lookup -/

/-- C3: when each 32-byte block of `matrix8_low()` holds the scores of codes
`0..15` of its row in both 16-byte halves, and each block of `matrix8_high()`
holds the scores of codes `16..31` in both halves, then for a row `r < 32` and
a lane `i` whose code `seq i` is below 32, lane `i` of `score_vector(r, seq)`
is `M r (seq i)`; the byte shuffle takes its byte from the 16-byte half that
contains lane `i`. -/
theorem C3_wide_row_lookup (matrix8_low matrix8_high : Mem) (M : Nat → Nat → Byte)
    (hlow : ∀ r k, r < 32 → k < 32 → matrix8_low ((r <<< 5) + k) = M r (k % 16))
    (hhigh : ∀ r k, r < 32 → k < 32 → matrix8_high ((r <<< 5) + k) = M r (16 + k % 16))
    (r : Nat) (hr : r < 32) (seq : m256i) (i : Fin 32) (hc : (seq i).val < 32) :
    (ARCH_AVX2.score_vector.ctor_row matrix8_low matrix8_high r seq).data_ i
      = M r (seq i).val := by
  have hi := i.isLt
  have hrow : ARCH_AVX2.score_vector.row r = r <<< 5 := row_of_lt r hr
  show ARCH_AVX2.score_vector.s1 matrix8_low r seq i
      ||| ARCH_AVX2.score_vector.s2 matrix8_high r seq i = M r (seq i).val
  rw [s1_lane_avx2, s2_lane_avx2, hrow]
  by_cases h : (seq i).val < 16
  · rw [if_pos (by omega), if_neg (by omega), hlow r _ hr (by omega), or_zero_byte]
    congr 1
    omega
  · rw [if_neg (by omega), if_pos (by omega), hhigh r _ hr (by omega), zero_or_byte]
    congr 1
    omega

/-- Witness for C3: the matrix `M r c = (32 r + c) mod 256` laid out in the
two tables, row 5, every lane holding code 17, read at lane 19. -/
theorem C3_wide_row_lookup_witness :
    (∀ r k, r < 32 → k < 32 →
        (fun n => byte_of_int (32 * (n / 32) + n % 16) : Mem) ((r <<< 5) + k)
          = (fun r c => byte_of_int (32 * r + c) : Nat → Nat → Byte) r (k % 16))
    ∧ (∀ r k, r < 32 → k < 32 →
        (fun n => byte_of_int (32 * (n / 32) + (16 + n % 16)) : Mem) ((r <<< 5) + k)
          = (fun r c => byte_of_int (32 * r + c) : Nat → Nat → Byte) r (16 + k % 16))
    ∧ 5 < 32 ∧ ((17 : Byte)).val < 32
    ∧ (ARCH_AVX2.score_vector.ctor_row
          (fun n => byte_of_int (32 * (n / 32) + n % 16))
          (fun n => byte_of_int (32 * (n / 32) + (16 + n % 16))) 5 (fun _ => 17)).data_ 19
        = byte_of_int 177 := by
  have h1 : ∀ r k, r < 32 → k < 32 →
      (fun n => byte_of_int (32 * (n / 32) + n % 16) : Mem) ((r <<< 5) + k)
        = (fun r c => byte_of_int (32 * r + c) : Nat → Nat → Byte) r (k % 16) := by
    intro r k _ hk
    show byte_of_int _ = byte_of_int _
    congr 1
    rw [Nat.shiftLeft_eq]
    omega
  have h2 : ∀ r k, r < 32 → k < 32 →
      (fun n => byte_of_int (32 * (n / 32) + (16 + n % 16)) : Mem) ((r <<< 5) + k)
        = (fun r c => byte_of_int (32 * r + c) : Nat → Nat → Byte) r (16 + k % 16) := by
    intro r k _ hk
    show byte_of_int _ = byte_of_int _
    congr 1
    rw [Nat.shiftLeft_eq]
    omega
  exact ⟨h1, h2, by decide, by decide,
    (C3_wide_row_lookup _ _ (fun r c => byte_of_int (32 * r + c)) h1 h2 5 (by decide)
      (fun _ => 17) 19 (by decide)).trans (by decide)⟩

/-! ## C4: blend -/

set_option maxRecDepth 100000 in
theorem top_bit_iff (m : Byte) : 128 ≤ m.val ↔ m &&& 128 = 128 := by
  revert m
  decide

theorem int8_neg_iff (m : Byte) : int8_of_byte m < 0 ↔ 128 ≤ m.val := by
  unfold int8_of_byte
  split_ifs <;> omega

/-- C4: in both variants lane `i` of `blend(a, b, mask)` is `b[i]` when
`mask[i]` is negative, which is when its bit `0x80` is set, and `a[i]`
otherwise; so vectors `a2`, `b2`, `mask2` that agree with `a`, `b`, `mask` in
lane `i` give the same lane `i`, whatever their other lanes hold. -/
theorem C4_blend_select (a b mask : ARCH_SSE4_1.score_vector) (i : Fin 16)
    (A B MASK : ARCH_AVX2.score_vector) (j : Fin 32) :
    ((ARCH_SSE4_1.blend a b mask).data_ i
        = if int8_of_byte (mask.data_ i) < 0 then b.data_ i else a.data_ i)
    ∧ (int8_of_byte (mask.data_ i) < 0 ↔ mask.data_ i &&& 128 = 128)
    ∧ (∀ a2 b2 mask2 : ARCH_SSE4_1.score_vector,
        a2.data_ i = a.data_ i → b2.data_ i = b.data_ i → mask2.data_ i = mask.data_ i →
        (ARCH_SSE4_1.blend a2 b2 mask2).data_ i = (ARCH_SSE4_1.blend a b mask).data_ i)
    ∧ ((ARCH_AVX2.blend A B MASK).data_ j
        = if int8_of_byte (MASK.data_ j) < 0 then B.data_ j else A.data_ j)
    ∧ (int8_of_byte (MASK.data_ j) < 0 ↔ MASK.data_ j &&& 128 = 128)
    ∧ (∀ A2 B2 MASK2 : ARCH_AVX2.score_vector,
        A2.data_ j = A.data_ j → B2.data_ j = B.data_ j → MASK2.data_ j = MASK.data_ j →
        (ARCH_AVX2.blend A2 B2 MASK2).data_ j = (ARCH_AVX2.blend A B MASK).data_ j) := by
  have key : ∀ x y m : Byte, blendv8 x y m = if int8_of_byte m < 0 then y else x := by
    intro x y m
    unfold blendv8
    by_cases h : 128 ≤ m.val
    · rw [if_pos h, if_pos ((int8_neg_iff m).2 h)]
    · rw [if_neg h, if_neg (fun h2 => h ((int8_neg_iff m).1 h2))]
  refine ⟨key _ _ _, (int8_neg_iff _).trans (top_bit_iff _), ?_,
    key _ _ _, (int8_neg_iff _).trans (top_bit_iff _), ?_⟩
  · intro a2 b2 mask2 ha hb hm
    show blendv8 (a2.data_ i) (b2.data_ i) (mask2.data_ i)
      = blendv8 (a.data_ i) (b.data_ i) (mask.data_ i)
    rw [ha, hb, hm]
  · intro A2 B2 MASK2 ha hb hm
    show blendv8 (A2.data_ j) (B2.data_ j) (MASK2.data_ j)
      = blendv8 (A.data_ j) (B.data_ j) (MASK.data_ j)
    rw [ha, hb, hm]

/-- Witness for C4: with the mask byte `0x80` in every lane the blend of the
broadcasts of 1 and 2 holds 2 in lane 3; changing the other lanes of the
first operand leaves lane 3 as it is. -/
theorem C4_blend_select_witness :
    (ARCH_SSE4_1.blend (ARCH_SSE4_1.score_vector.ctor_int 1)
        (ARCH_SSE4_1.score_vector.ctor_int 2) (ARCH_SSE4_1.score_vector.ctor_int (-128))).data_ 3
      = 2
    ∧ (ARCH_SSE4_1.blend (ARCH_SSE4_1.score_vector.ctor_data (fun k => if k = 3 then 1 else 77))
        (ARCH_SSE4_1.score_vector.ctor_int 2) (ARCH_SSE4_1.score_vector.ctor_int (-128))).data_ 3
      = (ARCH_SSE4_1.blend (ARCH_SSE4_1.score_vector.ctor_int 1)
        (ARCH_SSE4_1.score_vector.ctor_int 2) (ARCH_SSE4_1.score_vector.ctor_int (-128))).data_ 3 := by
  have h := C4_blend_select (ARCH_SSE4_1.score_vector.ctor_int 1)
    (ARCH_SSE4_1.score_vector.ctor_int 2) (ARCH_SSE4_1.score_vector.ctor_int (-128)) 3
    (ARCH_AVX2.score_vector.ctor_int 1) (ARCH_AVX2.score_vector.ctor_int 2)
    (ARCH_AVX2.score_vector.ctor_int (-128)) 3
  exact ⟨h.1.trans (by decide),
    h.2.2.1 (ARCH_SSE4_1.score_vector.ctor_data (fun k => if k = 3 then 1 else 77))
      (ARCH_SSE4_1.score_vector.ctor_int 2) (ARCH_SSE4_1.score_vector.ctor_int (-128))
      (by decide) rfl rfl⟩

/-! ## C5: the comparison mask -/

theorem movemask_bits_lt (n : Nat) (a : Fin n → Byte) : movemask_bits n a < 2 ^ n := by
  induction n with
  | zero => simp [movemask_bits]
  | succ n ih =>
    have h := ih (fun i => a i.castSucc)
    unfold movemask_bits
    rw [Nat.pow_succ]
    split_ifs <;> omega

theorem movemask_bits_testBit (n : Nat) (a : Fin n → Byte) (i : Nat) (hi : i < n) :
    (movemask_bits n a).testBit i = decide (128 ≤ (a ⟨i, hi⟩).val) := by
  induction n with
  | zero => omega
  | succ n ih =>
    have hlt := movemask_bits_lt n (fun k => a k.castSucc)
    unfold movemask_bits
    by_cases hin : i < n
    · have h := ih (fun k => a k.castSucc) hin
      split_ifs
      · rw [Nat.add_comm, Nat.testBit_two_pow_add_gt hin, h]
        rfl
      · rw [Nat.add_zero, h]
        rfl
    · have e : i = n := by omega
      subst e
      have hfalse : (movemask_bits i (fun k => a k.castSucc)).testBit i = false :=
        Nat.testBit_lt_two_pow hlt
      split_ifs with ht
      · rw [Nat.add_comm, Nat.testBit_two_pow_add_eq, hfalse]
        simp only [Bool.not_false]
        exact (decide_eq_true ht).symm
      · rw [Nat.add_zero, hfalse]
        exact (decide_eq_false ht).symm

theorem movemask_bits_testBit_ge (n : Nat) (a : Fin n → Byte) (i : Nat) (hi : n ≤ i) :
    (movemask_bits n a).testBit i = false :=
  Nat.testBit_lt_two_pow
    (Nat.lt_of_lt_of_le (movemask_bits_lt n a) (Nat.pow_le_pow_right (by decide) hi))

theorem movemask_bits_all (n : Nat) (a : Fin n → Byte) (h : ∀ i, 128 ≤ (a i).val) :
    movemask_bits n a = 2 ^ n - 1 := by
  induction n with
  | zero => simp [movemask_bits]
  | succ n ih =>
    have h1 := ih (fun i => a i.castSucc) (fun i => h _)
    have h2 : 1 ≤ 2 ^ n := Nat.one_le_two_pow
    unfold movemask_bits
    rw [if_pos (h _), h1, Nat.pow_succ]
    omega

theorem uint32_of_int_of_bits32 (m : Nat) (h : m < 4294967296) :
    uint32_of_int (int_of_bits32 m) = m := by
  unfold uint32_of_int int_of_bits32
  split_ifs <;> omega

theorem cmpeq8_top_bit (x y : Byte) : 128 ≤ (cmpeq8 x y).val ↔ x = y := by
  unfold cmpeq8
  split_ifs with h
  · exact ⟨fun _ => h, fun _ => by decide⟩
  · exact ⟨fun h2 => absurd h2 (by decide), fun h2 => absurd h2 h⟩

theorem cmp_mask_sse_eq (a b : ARCH_SSE4_1.score_vector) :
    ARCH_SSE4_1.cmp_mask a b = movemask_bits 16 (_mm_cmpeq_epi8 a.data_ b.data_) := by
  have h := movemask_bits_lt 16 (_mm_cmpeq_epi8 a.data_ b.data_)
  exact uint32_of_int_of_bits32 _ (by omega)

theorem cmp_mask_avx2_eq (a b : ARCH_AVX2.score_vector) :
    ARCH_AVX2.cmp_mask a b = movemask_bits 32 (_mm256_cmpeq_epi8 a.data_ b.data_) := by
  have h := movemask_bits_lt 32 (_mm256_cmpeq_epi8 a.data_ b.data_)
  exact uint32_of_int_of_bits32 _ (by omega)

theorem int_score_sse_inj (x y : Byte) :
    ARCH_SSE4_1.ScoreTraits.int_score x = ARCH_SSE4_1.ScoreTraits.int_score y ↔ x = y := by
  unfold ARCH_SSE4_1.ScoreTraits.int_score
  constructor
  · intro h
    exact int8_of_byte_inj _ _ (by omega)
  · intro h
    rw [h]

theorem int_score_avx2_inj (x y : Byte) :
    ARCH_AVX2.ScoreTraits.int_score x = ARCH_AVX2.ScoreTraits.int_score y ↔ x = y := by
  unfold ARCH_AVX2.ScoreTraits.int_score
  constructor
  · intro h
    exact int8_of_byte_inj _ _ (by omega)
  · intro h
    rw [h]

/-- C5: for lane `i < CHANNELS`, bit `i` of `cmp_mask(a, b)` is set exactly
when `int_score` of lane `i` of `a` equals `int_score` of lane `i` of `b`,
which is exactly when the two lanes are equal; every bit at position
`CHANNELS` or above is 0, so the 16-lane result is below `2^16` and the
32-lane result below `2^32`; and `cmp_mask(a, a)` is `2^CHANNELS - 1`. -/
theorem C5_cmp_mask_bits (a b : ARCH_SSE4_1.score_vector) (A B : ARCH_AVX2.score_vector) :
    (∀ i : Fin 16, (ARCH_SSE4_1.cmp_mask a b).testBit i.val = true
        ↔ ARCH_SSE4_1.ScoreTraits.int_score (a.data_ i)
          = ARCH_SSE4_1.ScoreTraits.int_score (b.data_ i))
    ∧ (∀ i : Fin 16, ARCH_SSE4_1.ScoreTraits.int_score (a.data_ i)
          = ARCH_SSE4_1.ScoreTraits.int_score (b.data_ i) ↔ a.data_ i = b.data_ i)
    ∧ (∀ k : Nat, ARCH_SSE4_1.ScoreTraits.CHANNELS ≤ k →
        (ARCH_SSE4_1.cmp_mask a b).testBit k = false)
    ∧ ARCH_SSE4_1.cmp_mask a b < 2 ^ 16
    ∧ ARCH_SSE4_1.cmp_mask a a = 2 ^ ARCH_SSE4_1.ScoreTraits.CHANNELS - 1
    ∧ (∀ j : Fin 32, (ARCH_AVX2.cmp_mask A B).testBit j.val = true
        ↔ ARCH_AVX2.ScoreTraits.int_score (A.data_ j)
          = ARCH_AVX2.ScoreTraits.int_score (B.data_ j))
    ∧ (∀ j : Fin 32, ARCH_AVX2.ScoreTraits.int_score (A.data_ j)
          = ARCH_AVX2.ScoreTraits.int_score (B.data_ j) ↔ A.data_ j = B.data_ j)
    ∧ (∀ k : Nat, ARCH_AVX2.ScoreTraits.CHANNELS ≤ k →
        (ARCH_AVX2.cmp_mask A B).testBit k = false)
    ∧ ARCH_AVX2.cmp_mask A B < 2 ^ 32
    ∧ ARCH_AVX2.cmp_mask A A = 2 ^ ARCH_AVX2.ScoreTraits.CHANNELS - 1 := by
  refine ⟨?_, fun i => int_score_sse_inj _ _, ?_, ?_, ?_,
    ?_, fun j => int_score_avx2_inj _ _, ?_, ?_, ?_⟩
  · intro i
    rw [cmp_mask_sse_eq, movemask_bits_testBit 16 _ i.val i.isLt, decide_eq_true_iff,
      int_score_sse_inj]
    exact cmpeq8_top_bit _ _
  · intro k hk
    rw [cmp_mask_sse_eq]
    exact movemask_bits_testBit_ge 16 _ k hk
  · rw [cmp_mask_sse_eq]
    exact movemask_bits_lt 16 _
  · rw [cmp_mask_sse_eq]
    exact movemask_bits_all 16 _ (fun i => (cmpeq8_top_bit _ _).2 rfl)
  · intro j
    rw [cmp_mask_avx2_eq, movemask_bits_testBit 32 _ j.val j.isLt, decide_eq_true_iff,
      int_score_avx2_inj]
    exact cmpeq8_top_bit _ _
  · intro k hk
    rw [cmp_mask_avx2_eq]
    exact movemask_bits_testBit_ge 32 _ k hk
  · rw [cmp_mask_avx2_eq]
    exact movemask_bits_lt 32 _
  · rw [cmp_mask_avx2_eq]
    exact movemask_bits_all 32 _ (fun i => (cmpeq8_top_bit _ _).2 rfl)

/-- Witness for C5: the broadcast of 1 compared with a vector holding 1 in
lane 3 only has bit 3 set and bit 0 clear, and no bit from 16 on. -/
theorem C5_cmp_mask_bits_witness :
    (ARCH_SSE4_1.cmp_mask (ARCH_SSE4_1.score_vector.ctor_int 1)
        (ARCH_SSE4_1.score_vector.ctor_data (fun k => if k = 3 then 1 else 0))).testBit 3 = true
    ∧ ¬ (ARCH_SSE4_1.cmp_mask (ARCH_SSE4_1.score_vector.ctor_int 1)
        (ARCH_SSE4_1.score_vector.ctor_data (fun k => if k = 3 then 1 else 0))).testBit 0 = true
    ∧ (ARCH_SSE4_1.cmp_mask (ARCH_SSE4_1.score_vector.ctor_int 1)
        (ARCH_SSE4_1.score_vector.ctor_data (fun k => if k = 3 then 1 else 0))).testBit 16
        = false := by
  have h := C5_cmp_mask_bits (ARCH_SSE4_1.score_vector.ctor_int 1)
    (ARCH_SSE4_1.score_vector.ctor_data (fun k => if k = 3 then 1 else 0))
    (ARCH_AVX2.score_vector.ctor_int 1) (ARCH_AVX2.score_vector.ctor_int 1)
  exact ⟨(h.1 3).2 (by decide), fun h0 => absurd ((h.1 0).1 h0) (by decide),
    h.2.2.1 16 (by decide)⟩

/-! ## C6: maximum and minimum -/

theorem max8_int8 (x y : Byte) :
    int8_of_byte (max8 x y) = Max.max (int8_of_byte x) (int8_of_byte y) := by
  unfold max8
  split_ifs with h
  · exact (max_eq_left (le_of_lt h)).symm
  · exact (max_eq_right (not_lt.1 h)).symm

theorem min8_int8 (x y : Byte) :
    int8_of_byte (min8 x y) = Min.min (int8_of_byte x) (int8_of_byte y) := by
  unfold min8
  split_ifs with h
  · exact (min_eq_left (le_of_lt h)).symm
  · exact (min_eq_right (not_lt.1 h)).symm

theorem max8_self (x : Byte) : max8 x x = x := by
  apply int8_of_byte_inj
  rw [max8_int8, max_self]

theorem min8_self (x : Byte) : min8 x x = x := by
  apply int8_of_byte_inj
  rw [min8_int8, min_self]

theorem max8_comm (x y : Byte) : max8 x y = max8 y x := by
  apply int8_of_byte_inj
  rw [max8_int8, max8_int8, max_comm]

theorem min8_comm (x y : Byte) : min8 x y = min8 y x := by
  apply int8_of_byte_inj
  rw [min8_int8, min8_int8, min_comm]

theorem max8_assoc (x y z : Byte) : max8 (max8 x y) z = max8 x (max8 y z) := by
  apply int8_of_byte_inj
  rw [max8_int8, max8_int8, max8_int8, max8_int8, max_assoc]

theorem min8_assoc (x y z : Byte) : min8 (min8 x y) z = min8 x (min8 y z) := by
  apply int8_of_byte_inj
  rw [min8_int8, min8_int8, min8_int8, min8_int8, min_assoc]

theorem score_vector_sse_ext (v w : ARCH_SSE4_1.score_vector)
    (h : ∀ i, v.data_ i = w.data_ i) : v = w := by
  cases v
  cases w
  exact congrArg ARCH_SSE4_1.score_vector.mk (funext h)

theorem score_vector_avx2_ext (v w : ARCH_AVX2.score_vector)
    (h : ∀ i, v.data_ i = w.data_ i) : v = w := by
  cases v
  cases w
  exact congrArg ARCH_AVX2.score_vector.mk (funext h)

/-- C6: in both variants the free `max` and `min` hold in every lane the
larger, resp. the smaller, of the two signed lane values; both are idempotent,
commutative and associative as vectors; and the member forms `a.max(b)` and
`a.min(b)` leave in `a` the vector that the free forms return. -/
theorem C6_max_min_algebra (a b c : ARCH_SSE4_1.score_vector) (A B C : ARCH_AVX2.score_vector) :
    ((∀ i : Fin 16, int8_of_byte ((ARCH_SSE4_1.max a b).data_ i)
          = Max.max (int8_of_byte (a.data_ i)) (int8_of_byte (b.data_ i)))
      ∧ (∀ i : Fin 16, int8_of_byte ((ARCH_SSE4_1.min a b).data_ i)
          = Min.min (int8_of_byte (a.data_ i)) (int8_of_byte (b.data_ i)))
      ∧ ARCH_SSE4_1.max a a = a ∧ ARCH_SSE4_1.min a a = a
      ∧ ARCH_SSE4_1.max a b = ARCH_SSE4_1.max b a
      ∧ ARCH_SSE4_1.min a b = ARCH_SSE4_1.min b a
      ∧ ARCH_SSE4_1.max (ARCH_SSE4_1.max a b) c = ARCH_SSE4_1.max a (ARCH_SSE4_1.max b c)
      ∧ ARCH_SSE4_1.min (ARCH_SSE4_1.min a b) c = ARCH_SSE4_1.min a (ARCH_SSE4_1.min b c)
      ∧ a.max b = ARCH_SSE4_1.max a b ∧ a.min b = ARCH_SSE4_1.min a b)
    ∧ ((∀ j : Fin 32, int8_of_byte ((ARCH_AVX2.max A B).data_ j)
          = Max.max (int8_of_byte (A.data_ j)) (int8_of_byte (B.data_ j)))
      ∧ (∀ j : Fin 32, int8_of_byte ((ARCH_AVX2.min A B).data_ j)
          = Min.min (int8_of_byte (A.data_ j)) (int8_of_byte (B.data_ j)))
      ∧ ARCH_AVX2.max A A = A ∧ ARCH_AVX2.min A A = A
      ∧ ARCH_AVX2.max A B = ARCH_AVX2.max B A
      ∧ ARCH_AVX2.min A B = ARCH_AVX2.min B A
      ∧ ARCH_AVX2.max (ARCH_AVX2.max A B) C = ARCH_AVX2.max A (ARCH_AVX2.max B C)
      ∧ ARCH_AVX2.min (ARCH_AVX2.min A B) C = ARCH_AVX2.min A (ARCH_AVX2.min B C)
      ∧ A.max B = ARCH_AVX2.max A B ∧ A.min B = ARCH_AVX2.min A B) := by
  refine ⟨⟨fun i => max8_int8 _ _, fun i => min8_int8 _ _, ?_, ?_, ?_, ?_, ?_, ?_, rfl, rfl⟩,
    ⟨fun j => max8_int8 _ _, fun j => min8_int8 _ _, ?_, ?_, ?_, ?_, ?_, ?_, rfl, rfl⟩⟩
  · exact score_vector_sse_ext _ _ (fun i => max8_self _)
  · exact score_vector_sse_ext _ _ (fun i => min8_self _)
  · exact score_vector_sse_ext _ _ (fun i => max8_comm _ _)
  · exact score_vector_sse_ext _ _ (fun i => min8_comm _ _)
  · exact score_vector_sse_ext _ _ (fun i => max8_assoc _ _ _)
  · exact score_vector_sse_ext _ _ (fun i => min8_assoc _ _ _)
  · exact score_vector_avx2_ext _ _ (fun i => max8_self _)
  · exact score_vector_avx2_ext _ _ (fun i => min8_self _)
  · exact score_vector_avx2_ext _ _ (fun i => max8_comm _ _)
  · exact score_vector_avx2_ext _ _ (fun i => min8_comm _ _)
  · exact score_vector_avx2_ext _ _ (fun i => max8_assoc _ _ _)
  · exact score_vector_avx2_ext _ _ (fun i => min8_assoc _ _ _)

/-! ## C7: store and load -/

/-- C7: in both variants, a vector stored at `ptr` and constructed again from
`ptr` (by the pointer constructor or by `load_sv`) is the vector that was
stored, lane `i` having been written at `ptr + i`; and a vector loaded from
`buf` and stored at `out` leaves at `out + i` the byte that was at `buf + i`,
for every `i < CHANNELS`. -/
theorem C7_store_load_round_trip (mem : Mem) (ptr buf out : Nat)
    (v : ARCH_SSE4_1.score_vector) (V : ARCH_AVX2.score_vector) :
    (ARCH_SSE4_1.score_vector.ctor_ptr (v.store mem ptr) ptr = v
      ∧ ARCH_SSE4_1.load_sv (v.store mem ptr) ptr = v
      ∧ ARCH_SSE4_1.load_sv_u (v.store mem ptr) ptr = v
      ∧ (∀ i : Fin 16, v.store mem ptr (ptr + i.val) = v.data_ i)
      ∧ (∀ i : Nat, i < ARCH_SSE4_1.ScoreTraits.CHANNELS →
          (ARCH_SSE4_1.load_sv mem buf).store mem out (out + i) = mem (buf + i)))
    ∧ (ARCH_AVX2.score_vector.ctor_ptr (V.store mem ptr) ptr = V
      ∧ ARCH_AVX2.load_sv (V.store mem ptr) ptr = V
      ∧ ARCH_AVX2.load_sv_u (V.store mem ptr) ptr = V
      ∧ (∀ j : Fin 32, V.store mem ptr (ptr + j.val) = V.data_ j)
      ∧ (∀ i : Nat, i < ARCH_AVX2.ScoreTraits.CHANNELS →
          (ARCH_AVX2.load_sv mem buf).store mem out (out + i) = mem (buf + i))) := by
  have h16 : ∀ i : Fin 16, (ARCH_SSE4_1.score_vector.ctor_ptr (v.store mem ptr) ptr).data_ i
      = v.data_ i := by
    intro i
    have hi := i.isLt
    show (if h : ptr ≤ ptr + i.val ∧ ptr + i.val < ptr + 16
      then v.data_ ⟨ptr + i.val - ptr, by omega⟩ else mem (ptr + i.val)) = v.data_ i
    rw [dif_pos ⟨by omega, by omega⟩]
    congr 1
    exact Fin.ext (by simp only []; omega)
  have h32 : ∀ i : Fin 32, (ARCH_AVX2.score_vector.ctor_ptr (V.store mem ptr) ptr).data_ i
      = V.data_ i := by
    intro i
    have hi := i.isLt
    show (if h : ptr ≤ ptr + i.val ∧ ptr + i.val < ptr + 32
      then V.data_ ⟨ptr + i.val - ptr, by omega⟩ else mem (ptr + i.val)) = V.data_ i
    rw [dif_pos ⟨by omega, by omega⟩]
    congr 1
    exact Fin.ext (by simp only []; omega)
  refine ⟨⟨score_vector_sse_ext _ _ h16, score_vector_sse_ext _ _ h16,
    score_vector_sse_ext _ _ h16, h16, ?_⟩,
    ⟨score_vector_avx2_ext _ _ h32, score_vector_avx2_ext _ _ h32,
    score_vector_avx2_ext _ _ h32, h32, ?_⟩⟩
  · intro i hi
    have hi2 : i < 16 := hi
    show (if h : out ≤ out + i ∧ out + i < out + 16
      then mem (buf + (⟨out + i - out, by omega⟩ : Fin 16).val) else mem (out + i))
      = mem (buf + i)
    rw [dif_pos ⟨by omega, by omega⟩]
    congr 2
    simp only []
    omega
  · intro i hi
    have hi2 : i < 32 := hi
    show (if h : out ≤ out + i ∧ out + i < out + 32
      then mem (buf + (⟨out + i - out, by omega⟩ : Fin 32).val) else mem (out + i))
      = mem (buf + i)
    rw [dif_pos ⟨by omega, by omega⟩]
    congr 2
    simp only []
    omega

/-! ## C8, C9: the sentinel vector under saturating addition -/

theorem adds8_zero_right (x : Byte) : adds8 x 0 = x := by
  apply int8_of_byte_inj
  have hx := int8_of_byte_range x
  have h0 : int8_of_byte 0 = 0 := by decide
  rw [adds8_int8, h0]
  unfold clamp
  split_ifs <;> omega

theorem adds8_zero_left (x : Byte) : adds8 0 x = x := by
  apply int8_of_byte_inj
  have hx := int8_of_byte_range x
  have h0 : int8_of_byte 0 = 0 := by decide
  rw [adds8_int8, h0]
  unfold clamp
  split_ifs <;> omega

theorem adds8_sentinel_right (x : Byte) :
    int8_of_byte (adds8 x (byte_of_int SCHAR_MIN))
      = clamp (int8_of_byte x - 128) (-128) 127 := by
  have h0 : int8_of_byte (byte_of_int SCHAR_MIN) = -128 := by decide
  rw [adds8_int8, h0]
  rfl

theorem adds8_sentinel_left (x : Byte) :
    int8_of_byte (adds8 (byte_of_int SCHAR_MIN) x)
      = clamp (int8_of_byte x - 128) (-128) 127 := by
  have h0 : int8_of_byte (byte_of_int SCHAR_MIN) = -128 := by decide
  rw [adds8_int8, h0, Int.add_comm]
  rfl

theorem adds8_sentinel_fixed (x : Byte) :
    adds8 x (byte_of_int SCHAR_MIN) = x ↔ int8_of_byte x = -128 := by
  have hx := int8_of_byte_range x
  have h := adds8_sentinel_right x
  constructor
  · intro e
    rw [e] at h
    unfold clamp at h
    split_ifs at h <;> omega
  · intro e
    apply int8_of_byte_inj
    rw [h, e]
    rfl

/-- C8, as the code has it: `v + zero()` is not `v` in general. In both
variants lane `i` of `v + zero()` and of `zero() + v` reads as the signed lane
`v[i]` minus 128, clamped to `-128..127`, and is `v[i]` exactly when `v[i]` is
-128. The identity of the saturating `+` is the broadcast of numeric 0:
`v + score_vector(0) == v` and `score_vector(0) + v == v`. -/
theorem C8_sentinel_plus_and_identity (v : ARCH_SSE4_1.score_vector) (i : Fin 16)
    (V : ARCH_AVX2.score_vector) (j : Fin 32) :
    (int8_of_byte ((v.operator_plus ARCH_SSE4_1.ScoreTraits.zero).data_ i)
        = clamp (int8_of_byte (v.data_ i) - 128) (-128) 127
      ∧ int8_of_byte ((ARCH_SSE4_1.ScoreTraits.zero.operator_plus v).data_ i)
        = clamp (int8_of_byte (v.data_ i) - 128) (-128) 127
      ∧ ((v.operator_plus ARCH_SSE4_1.ScoreTraits.zero).data_ i = v.data_ i
        ↔ int8_of_byte (v.data_ i) = -128)
      ∧ v.operator_plus (ARCH_SSE4_1.score_vector.ctor_int 0) = v
      ∧ (ARCH_SSE4_1.score_vector.ctor_int 0).operator_plus v = v)
    ∧ (int8_of_byte ((V.operator_plus ARCH_AVX2.ScoreTraits.zero).data_ j)
        = clamp (int8_of_byte (V.data_ j) - 128) (-128) 127
      ∧ int8_of_byte ((ARCH_AVX2.ScoreTraits.zero.operator_plus V).data_ j)
        = clamp (int8_of_byte (V.data_ j) - 128) (-128) 127
      ∧ ((V.operator_plus ARCH_AVX2.ScoreTraits.zero).data_ j = V.data_ j
        ↔ int8_of_byte (V.data_ j) = -128)
      ∧ V.operator_plus (ARCH_AVX2.score_vector.ctor_int 0) = V
      ∧ (ARCH_AVX2.score_vector.ctor_int 0).operator_plus V = V) :=
  ⟨⟨adds8_sentinel_right _, adds8_sentinel_left _, adds8_sentinel_fixed _,
    score_vector_sse_ext _ _ (fun _ => adds8_zero_right _),
    score_vector_sse_ext _ _ (fun _ => adds8_zero_left _)⟩,
  ⟨adds8_sentinel_right _, adds8_sentinel_left _, adds8_sentinel_fixed _,
    score_vector_avx2_ext _ _ (fun _ => adds8_zero_right _),
    score_vector_avx2_ext _ _ (fun _ => adds8_zero_left _)⟩⟩

/-- C8 fails as stated: for the vector `v` holding numeric 0 in every lane,
lane 0 of `v + zero()` and of `zero() + v` reads -128 while lane 0 of `v`
reads 0, so neither sum is `v`. -/
theorem C8_sentinel_not_identity :
    int8_of_byte (((ARCH_SSE4_1.score_vector.ctor_int 0).operator_plus
        ARCH_SSE4_1.ScoreTraits.zero).data_ 0) = -128
    ∧ int8_of_byte ((ARCH_SSE4_1.ScoreTraits.zero.operator_plus
        (ARCH_SSE4_1.score_vector.ctor_int 0)).data_ 0) = -128
    ∧ int8_of_byte ((ARCH_SSE4_1.score_vector.ctor_int 0).data_ 0) = 0
    ∧ ¬ ((ARCH_SSE4_1.score_vector.ctor_int 0).operator_plus ARCH_SSE4_1.ScoreTraits.zero
        = ARCH_SSE4_1.score_vector.ctor_int 0)
    ∧ ¬ (ARCH_SSE4_1.ScoreTraits.zero.operator_plus (ARCH_SSE4_1.score_vector.ctor_int 0)
        = ARCH_SSE4_1.score_vector.ctor_int 0) := by
  refine ⟨by decide, by decide, by decide, ?_, ?_⟩
  · intro h
    have h0 := congrArg (fun w : ARCH_SSE4_1.score_vector => (w.data_ 0).val) h
    revert h0
    decide
  · intro h
    have h0 := congrArg (fun w : ARCH_SSE4_1.score_vector => (w.data_ 0).val) h
    revert h0
    decide

/-- C9: in both variants `zero() + zero()` is `zero()`; every lane of `zero()`
is `zero_score()`, which reads -128, and so is every lane of the sum. -/
theorem C9_sentinel_fixed_point :
    (ARCH_SSE4_1.ScoreTraits.zero.operator_plus ARCH_SSE4_1.ScoreTraits.zero
        = ARCH_SSE4_1.ScoreTraits.zero
      ∧ int8_of_byte ARCH_SSE4_1.ScoreTraits.zero_score = -128
      ∧ (∀ i : Fin 16, ARCH_SSE4_1.ScoreTraits.zero.data_ i = ARCH_SSE4_1.ScoreTraits.zero_score
          ∧ (ARCH_SSE4_1.ScoreTraits.zero.operator_plus ARCH_SSE4_1.ScoreTraits.zero).data_ i
            = ARCH_SSE4_1.ScoreTraits.zero_score))
    ∧ (ARCH_AVX2.ScoreTraits.zero.operator_plus ARCH_AVX2.ScoreTraits.zero
        = ARCH_AVX2.ScoreTraits.zero
      ∧ int8_of_byte ARCH_AVX2.ScoreTraits.zero_score = -128
      ∧ (∀ j : Fin 32, ARCH_AVX2.ScoreTraits.zero.data_ j = ARCH_AVX2.ScoreTraits.zero_score
          ∧ (ARCH_AVX2.ScoreTraits.zero.operator_plus ARCH_AVX2.ScoreTraits.zero).data_ j
            = ARCH_AVX2.ScoreTraits.zero_score)) := by
  have h : adds8 (byte_of_int SCHAR_MIN) (byte_of_int SCHAR_MIN) = byte_of_int SCHAR_MIN := by
    decide
  exact ⟨⟨score_vector_sse_ext _ _ (fun _ => h), by decide, fun _ => ⟨rfl, h⟩⟩,
    ⟨score_vector_avx2_ext _ _ (fun _ => h), by decide, fun _ => ⟨rfl, h⟩⟩⟩

/-! ## C10: accumulation in the biased representation -/

theorem int_score_adds8 (s x : Byte) :
    int8_of_byte (adds8 s x) - SCHAR_MIN
      = clamp (int8_of_byte s - SCHAR_MIN + int8_of_byte x) 0 (SCHAR_MAX - SCHAR_MIN) := by
  have hs := int8_of_byte_range s
  have hx := int8_of_byte_range x
  rw [adds8_int8]
  unfold clamp SCHAR_MIN SCHAR_MAX
  split_ifs <;> omega

/-- C10: in both variants, for a lane holding any stored value and a raw score
`d` in `-128..127`, `int_score` of the lane of `v + score_vector(d)` is
`int_score` of the old lane plus `d`, clamped to `0..max_int_score()`, for the
`int` constructor and for the `int8_t` constructor alike; and every lane of
`zero() + score_vector(3) + score_vector(3)` decodes to 6. -/
theorem C10_bias_free_accumulation (d : Int) (hlo : -128 ≤ d) (hhi : d ≤ 127)
    (v : ARCH_SSE4_1.score_vector) (i : Fin 16) (V : ARCH_AVX2.score_vector) (j : Fin 32) :
    (ARCH_SSE4_1.ScoreTraits.int_score
        ((v.operator_plus (ARCH_SSE4_1.score_vector.ctor_int d)).data_ i)
        = clamp (ARCH_SSE4_1.ScoreTraits.int_score (v.data_ i) + d) 0
          ARCH_SSE4_1.ScoreTraits.max_int_score
      ∧ ARCH_SSE4_1.ScoreTraits.int_score
        ((v.operator_plus (ARCH_SSE4_1.score_vector.ctor_int8 (byte_of_int d))).data_ i)
        = clamp (ARCH_SSE4_1.ScoreTraits.int_score (v.data_ i) + d) 0
          ARCH_SSE4_1.ScoreTraits.max_int_score
      ∧ ARCH_SSE4_1.ScoreTraits.int_score
        (((ARCH_SSE4_1.ScoreTraits.zero.operator_plus
          (ARCH_SSE4_1.score_vector.ctor_int 3)).operator_plus
          (ARCH_SSE4_1.score_vector.ctor_int 3)).data_ i) = 6)
    ∧ (ARCH_AVX2.ScoreTraits.int_score
        ((V.operator_plus (ARCH_AVX2.score_vector.ctor_int d)).data_ j)
        = clamp (ARCH_AVX2.ScoreTraits.int_score (V.data_ j) + d) 0
          ARCH_AVX2.ScoreTraits.max_int_score
      ∧ ARCH_AVX2.ScoreTraits.int_score
        ((V.operator_plus (ARCH_AVX2.score_vector.ctor_int8 (byte_of_int d))).data_ j)
        = clamp (ARCH_AVX2.ScoreTraits.int_score (V.data_ j) + d) 0
          ARCH_AVX2.ScoreTraits.max_int_score
      ∧ ARCH_AVX2.ScoreTraits.int_score
        (((ARCH_AVX2.ScoreTraits.zero.operator_plus
          (ARCH_AVX2.score_vector.ctor_int 3)).operator_plus
          (ARCH_AVX2.score_vector.ctor_int 3)).data_ j) = 6) := by
  have hd : int8_of_byte (byte_of_int d) = d := int8_of_byte_of_int d hlo hhi
  have key : ∀ s : Byte, int8_of_byte (adds8 s (byte_of_int d)) - SCHAR_MIN
      = clamp (int8_of_byte s - SCHAR_MIN + d) 0 (SCHAR_MAX - SCHAR_MIN) := by
    intro s
    have h := int_score_adds8 s (byte_of_int d)
    rw [hd] at h
    exact h
  have six : int8_of_byte (adds8 (adds8 (byte_of_int SCHAR_MIN) (byte_of_int 3)) (byte_of_int 3))
      - SCHAR_MIN = 6 := by
    decide
  exact ⟨⟨key _, key _, six⟩, ⟨key _, key _, six⟩⟩

/-- Witness for C10: the raw score 3 added to the sentinel vector, read at
lane 2 of the 16-lane variant and lane 20 of the 32-lane variant. -/
theorem C10_bias_free_accumulation_witness :
    (-128 : Int) ≤ 3 ∧ (3 : Int) ≤ 127
    ∧ ARCH_SSE4_1.ScoreTraits.int_score
        ((ARCH_SSE4_1.ScoreTraits.zero.operator_plus
          (ARCH_SSE4_1.score_vector.ctor_int 3)).data_ 2) = 3
    ∧ ARCH_AVX2.ScoreTraits.int_score
        ((ARCH_AVX2.ScoreTraits.zero.operator_plus
          (ARCH_AVX2.score_vector.ctor_int 3)).data_ 20) = 3 := by
  have h := C10_bias_free_accumulation 3 (by decide) (by decide)
    ARCH_SSE4_1.ScoreTraits.zero 2 ARCH_AVX2.ScoreTraits.zero 20
  exact ⟨by decide, by decide, h.1.1.trans (by decide), h.2.1.trans (by decide)⟩

/-! ## Row lookup for an arbitrary index byte -/

theorem ctor_row_lane_sse (matrix8 : Mem) (a : Nat) (seq : m128i) (i : Fin 16) :
    (ARCH_SSE4_1.score_vector.ctor_row matrix8 a seq).data_ i
      = if (seq i).val < 128
        then matrix8 (ARCH_SSE4_1.score_vector.row a + (seq i).val % 32) else 0 := by
  show ARCH_SSE4_1.score_vector.s1 matrix8 a seq i
      ||| ARCH_SSE4_1.score_vector.s2 matrix8 a seq i = _
  rw [s1_lane_sse, s2_lane_sse]
  by_cases h : (seq i).val < 128
  · by_cases h2 : (seq i).val % 32 < 16
    · have e : (seq i).val % 16 = (seq i).val % 32 := by omega
      rw [if_pos ⟨h, h2⟩, if_neg (fun c => c.2 h2), if_pos h, e]
      exact or_zero_byte _
    · have e : ARCH_SSE4_1.score_vector.row a + 16 + (seq i).val % 16
          = ARCH_SSE4_1.score_vector.row a + (seq i).val % 32 := by omega
      rw [if_neg (fun c => h2 c.2), if_pos ⟨h, h2⟩, if_pos h, e]
      exact zero_or_byte _
  · rw [if_neg (fun c => h c.1), if_neg (fun c => h c.1), if_neg h]
    rfl

/-! ## C11: the row lookup example -/

/-- C11, as the code has it: when the table bytes of row 5 for codes 0, 1, 2
are the signed scores 4, -1, -2 and the codes in lanes 0..3 are 0, 1, 2, 0,
the row lookup leaves the signed values 4, -1, -2, 4 in lanes 0..3. Lane 0 and
lane 3 read as 4 and lane 1 reads as -1; `int_score` adds 128, so it gives
132 for lanes 0 and 3 and 127 for lane 1; `operator[]` gives the unsigned
bytes 4, 255 and 4 for lanes 0, 1 and 3. -/
theorem C11_row_lookup_example (matrix8 : Mem) (seq : m128i)
    (h0 : matrix8 ((5 <<< 5) + 0) = byte_of_int 4)
    (h1 : matrix8 ((5 <<< 5) + 1) = byte_of_int (-1))
    (h2 : matrix8 ((5 <<< 5) + 2) = byte_of_int (-2))
    (c0 : seq 0 = 0) (c1 : seq 1 = 1) (c2 : seq 2 = 2) (c3 : seq 3 = 0) :
    (int8_of_byte ((ARCH_SSE4_1.score_vector.ctor_row matrix8 5 seq).data_ 0) = 4
      ∧ int8_of_byte ((ARCH_SSE4_1.score_vector.ctor_row matrix8 5 seq).data_ 1) = -1
      ∧ int8_of_byte ((ARCH_SSE4_1.score_vector.ctor_row matrix8 5 seq).data_ 2) = -2
      ∧ int8_of_byte ((ARCH_SSE4_1.score_vector.ctor_row matrix8 5 seq).data_ 3) = 4)
    ∧ (ARCH_SSE4_1.ScoreTraits.int_score
          ((ARCH_SSE4_1.score_vector.ctor_row matrix8 5 seq).data_ 0) = 132
      ∧ ARCH_SSE4_1.ScoreTraits.int_score
          ((ARCH_SSE4_1.score_vector.ctor_row matrix8 5 seq).data_ 1) = 127
      ∧ ARCH_SSE4_1.ScoreTraits.int_score
          ((ARCH_SSE4_1.score_vector.ctor_row matrix8 5 seq).data_ 3) = 132)
    ∧ ((ARCH_SSE4_1.score_vector.ctor_row matrix8 5 seq).operator_index 0 = some 4
      ∧ (ARCH_SSE4_1.score_vector.ctor_row matrix8 5 seq).operator_index 1 = some 255
      ∧ (ARCH_SSE4_1.score_vector.ctor_row matrix8 5 seq).operator_index 3 = some 4) := by
  have l0 : (ARCH_SSE4_1.score_vector.ctor_row matrix8 5 seq).data_ 0 = byte_of_int 4 := by
    rw [ctor_row_lane_sse, c0]
    exact h0
  have l1 : (ARCH_SSE4_1.score_vector.ctor_row matrix8 5 seq).data_ 1 = byte_of_int (-1) := by
    rw [ctor_row_lane_sse, c1]
    exact h1
  have l2 : (ARCH_SSE4_1.score_vector.ctor_row matrix8 5 seq).data_ 2 = byte_of_int (-2) := by
    rw [ctor_row_lane_sse, c2]
    exact h2
  have l3 : (ARCH_SSE4_1.score_vector.ctor_row matrix8 5 seq).data_ 3 = byte_of_int 4 := by
    rw [ctor_row_lane_sse, c3]
    exact h0
  have i0 : (ARCH_SSE4_1.score_vector.ctor_row matrix8 5 seq).operator_index 0
      = some (((ARCH_SSE4_1.score_vector.ctor_row matrix8 5 seq).data_ 0).val : Int) := rfl
  have i1 : (ARCH_SSE4_1.score_vector.ctor_row matrix8 5 seq).operator_index 1
      = some (((ARCH_SSE4_1.score_vector.ctor_row matrix8 5 seq).data_ 1).val : Int) := rfl
  have i3 : (ARCH_SSE4_1.score_vector.ctor_row matrix8 5 seq).operator_index 3
      = some (((ARCH_SSE4_1.score_vector.ctor_row matrix8 5 seq).data_ 3).val : Int) := rfl
  rw [i0, i1, i3, l0, l1, l2, l3]
  decide

/-- Witness for C11: the table that holds 4, -1, -2 at indices 160, 161, 162
and 0 elsewhere, with the codes 0, 1, 2 in lanes 0, 1, 2 and 0 in the other
lanes. -/
theorem C11_row_lookup_example_witness :
    int8_of_byte ((ARCH_SSE4_1.score_vector.ctor_row
        (fun k => if k = 160 then byte_of_int 4 else if k = 161 then byte_of_int (-1)
          else if k = 162 then byte_of_int (-2) else 0) 5
        (fun i => if i = 1 then 1 else if i = 2 then 2 else 0)).data_ 1) = -1
    ∧ ARCH_SSE4_1.ScoreTraits.int_score ((ARCH_SSE4_1.score_vector.ctor_row
        (fun k => if k = 160 then byte_of_int 4 else if k = 161 then byte_of_int (-1)
          else if k = 162 then byte_of_int (-2) else 0) 5
        (fun i => if i = 1 then 1 else if i = 2 then 2 else 0)).data_ 3) = 132 := by
  have h := C11_row_lookup_example
    (fun k => if k = 160 then byte_of_int 4 else if k = 161 then byte_of_int (-1)
      else if k = 162 then byte_of_int (-2) else 0)
    (fun i => if i = 1 then 1 else if i = 2 then 2 else 0)
    (by decide) (by decide) (by decide) (by decide) (by decide) (by decide) (by decide)
  exact ⟨h.1.2.1, h.2.1.2.2⟩

/-- C11 fails as stated: with the table that holds the scores 4, -1, -2 at
indices 160, 161, 162 (row 5, codes 0, 1, 2) and the codes 0, 1, 2, 0 in lanes
0..3, `int_score` of lane 0 and of lane 3 is 132 and not 4. -/
theorem C11_int_score_is_biased :
    ARCH_SSE4_1.ScoreTraits.int_score ((ARCH_SSE4_1.score_vector.ctor_row
        (fun k => if k = 160 then byte_of_int 4 else if k = 161 then byte_of_int (-1)
          else if k = 162 then byte_of_int (-2) else 0) 5
        (fun i => if i = 1 then 1 else if i = 2 then 2 else 0)).data_ 0) = 132
    ∧ ARCH_SSE4_1.ScoreTraits.int_score ((ARCH_SSE4_1.score_vector.ctor_row
        (fun k => if k = 160 then byte_of_int 4 else if k = 161 then byte_of_int (-1)
          else if k = 162 then byte_of_int (-2) else 0) 5
        (fun i => if i = 1 then 1 else if i = 2 then 2 else 0)).data_ 3) = 132
    ∧ ¬ (ARCH_SSE4_1.ScoreTraits.int_score ((ARCH_SSE4_1.score_vector.ctor_row
        (fun k => if k = 160 then byte_of_int 4 else if k = 161 then byte_of_int (-1)
          else if k = 162 then byte_of_int (-2) else 0) 5
        (fun i => if i = 1 then 1 else if i = 2 then 2 else 0)).data_ 0) = 4) := by
  decide

/-! ## C12: the score codec of `ScoreTraits` -/

/-- C12: in both variants `int_score(s)` is the signed value of `s` minus
`zero_score()`, which is the signed value plus 128; it lies in
`0..max_int_score()` and is injective; `int_score(zero_score())` is 0;
`max_int_score()` is `max_score() - zero_score()`, which is 255 and is
`int_score(max_score())`; and every lane of `zero()` decodes to 0. -/
theorem C12_score_codec (s t : Byte) (i : Fin 16) (j : Fin 32) :
    (ARCH_SSE4_1.ScoreTraits.int_score s
        = int8_of_byte s - int8_of_byte ARCH_SSE4_1.ScoreTraits.zero_score
      ∧ ARCH_SSE4_1.ScoreTraits.int_score s = int8_of_byte s + 128
      ∧ 0 ≤ ARCH_SSE4_1.ScoreTraits.int_score s
      ∧ ARCH_SSE4_1.ScoreTraits.int_score s ≤ ARCH_SSE4_1.ScoreTraits.max_int_score
      ∧ (ARCH_SSE4_1.ScoreTraits.int_score s = ARCH_SSE4_1.ScoreTraits.int_score t ↔ s = t)
      ∧ ARCH_SSE4_1.ScoreTraits.int_score ARCH_SSE4_1.ScoreTraits.zero_score = 0
      ∧ ARCH_SSE4_1.ScoreTraits.max_int_score
        = int8_of_byte ARCH_SSE4_1.ScoreTraits.max_score
          - int8_of_byte ARCH_SSE4_1.ScoreTraits.zero_score
      ∧ ARCH_SSE4_1.ScoreTraits.max_int_score = 255
      ∧ ARCH_SSE4_1.ScoreTraits.int_score ARCH_SSE4_1.ScoreTraits.max_score = 255
      ∧ ARCH_SSE4_1.ScoreTraits.int_score (ARCH_SSE4_1.ScoreTraits.zero.data_ i) = 0)
    ∧ (ARCH_AVX2.ScoreTraits.int_score s
        = int8_of_byte s - int8_of_byte ARCH_AVX2.ScoreTraits.zero_score
      ∧ ARCH_AVX2.ScoreTraits.int_score s = int8_of_byte s + 128
      ∧ 0 ≤ ARCH_AVX2.ScoreTraits.int_score s
      ∧ ARCH_AVX2.ScoreTraits.int_score s ≤ ARCH_AVX2.ScoreTraits.max_int_score
      ∧ (ARCH_AVX2.ScoreTraits.int_score s = ARCH_AVX2.ScoreTraits.int_score t ↔ s = t)
      ∧ ARCH_AVX2.ScoreTraits.int_score ARCH_AVX2.ScoreTraits.zero_score = 0
      ∧ ARCH_AVX2.ScoreTraits.max_int_score
        = int8_of_byte ARCH_AVX2.ScoreTraits.max_score
          - int8_of_byte ARCH_AVX2.ScoreTraits.zero_score
      ∧ ARCH_AVX2.ScoreTraits.max_int_score = 255
      ∧ ARCH_AVX2.ScoreTraits.int_score ARCH_AVX2.ScoreTraits.max_score = 255
      ∧ ARCH_AVX2.ScoreTraits.int_score (ARCH_AVX2.ScoreTraits.zero.data_ j) = 0) := by
  have hs := int8_of_byte_range s
  have hz : int8_of_byte (byte_of_int SCHAR_MIN) = -128 := by decide
  have e : int8_of_byte s - SCHAR_MIN = int8_of_byte s + 128 := by
    unfold SCHAR_MIN
    omega
  have hz0 : int8_of_byte (byte_of_int SCHAR_MIN) - SCHAR_MIN = 0 := by decide
  refine ⟨⟨?_, e, ?_, ?_, int_score_sse_inj s t, by decide, by decide, by decide, by decide,
      hz0⟩,
    ⟨?_, e, ?_, ?_, int_score_avx2_inj s t, by decide, by decide, by decide, by decide,
      hz0⟩⟩
  · show int8_of_byte s - SCHAR_MIN = int8_of_byte s - int8_of_byte (byte_of_int SCHAR_MIN)
    rw [hz]
    rfl
  · show 0 ≤ int8_of_byte s - SCHAR_MIN
    rw [e]
    omega
  · show int8_of_byte s - SCHAR_MIN ≤ SCHAR_MAX - SCHAR_MIN
    unfold SCHAR_MIN SCHAR_MAX
    omega
  · show int8_of_byte s - SCHAR_MIN = int8_of_byte s - int8_of_byte (byte_of_int SCHAR_MIN)
    rw [hz]
    rfl
  · show 0 ≤ int8_of_byte s - SCHAR_MIN
    rw [e]
    omega
  · show int8_of_byte s - SCHAR_MIN ≤ SCHAR_MAX - SCHAR_MIN
    unfold SCHAR_MIN SCHAR_MAX
    omega

/-! ## C13: the trace mask -/

theorem trace_make_sse_val (v h : Nat) (hv : v < 65536) (hh : h < 65536) :
    ARCH_SSE4_1.ScoreTraits.TraceMask.make v h = 65536 * v + h := by
  have e : (2 : Nat) ^ 16 = 65536 := by norm_num
  have hor := Nat.mul_add_lt_is_or (show h < 2 ^ 16 by rw [e]; exact hh) v
  rw [e] at hor
  unfold ARCH_SSE4_1.ScoreTraits.TraceMask.make
  rw [Nat.shiftLeft_eq, e, Nat.mod_eq_of_lt (by omega), Nat.mul_comm v 65536]
  exact hor.symm

theorem trace_make_avx2_val (v h : Nat) (hv : v < 4294967296) (hh : h < 4294967296) :
    ARCH_AVX2.ScoreTraits.TraceMask.make v h = 4294967296 * v + h := by
  have e : (2 : Nat) ^ 32 = 4294967296 := by norm_num
  have hor := Nat.mul_add_lt_is_or (show h < 2 ^ 32 by rw [e]; exact hh) v
  rw [e] at hor
  unfold ARCH_AVX2.ScoreTraits.TraceMask.make
  rw [Nat.shiftLeft_eq, e, Nat.mod_eq_of_lt (by omega), Nat.mul_comm v 4294967296]
  exact hor.symm

theorem two_pow_lt_of_lt (c n : Nat) (h : c < n) : 2 ^ c < 2 ^ n :=
  Nat.pow_lt_pow_right (by decide) h

theorem trace_vmask_sse_val (c : Nat) (hc : c < 16) :
    ARCH_SSE4_1.ScoreTraits.TraceMask.vmask c = 2 ^ (c + 16) := by
  have h := two_pow_lt_of_lt (c + 16) 32 (by omega)
  have e : (2 : Nat) ^ 32 = 4294967296 := by norm_num
  unfold ARCH_SSE4_1.ScoreTraits.TraceMask.vmask
  rw [Nat.shiftLeft_eq, Nat.one_mul]
  exact uint32_of_int_of_bits32 _ (by omega)

theorem trace_hmask_sse_val (c : Nat) (hc : c < 16) :
    ARCH_SSE4_1.ScoreTraits.TraceMask.hmask c = 2 ^ c := by
  have h := two_pow_lt_of_lt c 32 (by omega)
  have e : (2 : Nat) ^ 32 = 4294967296 := by norm_num
  unfold ARCH_SSE4_1.ScoreTraits.TraceMask.hmask
  rw [Nat.shiftLeft_eq, Nat.one_mul]
  exact uint32_of_int_of_bits32 _ (by omega)

theorem trace_vmask_avx2_val (c : Nat) (hc : c < 32) :
    ARCH_AVX2.ScoreTraits.TraceMask.vmask c = 2 ^ (c + 32) := by
  have h := two_pow_lt_of_lt (c + 32) 64 (by omega)
  have e : (2 : Nat) ^ 64 = 18446744073709551616 := by norm_num
  unfold ARCH_AVX2.ScoreTraits.TraceMask.vmask
  rw [Nat.shiftLeft_eq, Nat.one_mul]
  exact Nat.mod_eq_of_lt (by omega)

theorem trace_hmask_avx2_val (c : Nat) (hc : c < 32) :
    ARCH_AVX2.ScoreTraits.TraceMask.hmask c = 2 ^ c := by
  have h := two_pow_lt_of_lt c 64 (by omega)
  have e : (2 : Nat) ^ 64 = 18446744073709551616 := by norm_num
  unfold ARCH_AVX2.ScoreTraits.TraceMask.hmask
  rw [Nat.shiftLeft_eq, Nat.one_mul]
  exact Nat.mod_eq_of_lt (by omega)

theorem testBit_two_pow_iff (n k : Nat) : (2 ^ n).testBit k = true ↔ k = n := by
  rw [Nat.testBit_two_pow, decide_eq_true_iff]
  exact eq_comm

theorem two_pow_and_two_pow (m n : Nat) (h : m ≠ n) : 2 ^ m &&& 2 ^ n = 0 := by
  apply Nat.eq_of_testBit_eq
  intro k
  rw [Nat.testBit_and, Nat.testBit_two_pow, Nat.testBit_two_pow, Nat.zero_testBit]
  by_cases h1 : m = k
  · have h2 : ¬ n = k := fun e => h (h1.trans e.symm)
    rw [decide_eq_false h2, Bool.and_false]
  · rw [decide_eq_false h1, Bool.false_and]

/-- C13: for the 16-lane variant (32-bit result) and the 32-lane variant
(64-bit result), with `N = CHANNELS`: for bit planes `v, h < 2^N`,
`make(v, h) >> N` is `v`, `make(v, h) mod 2^N` is `h`, the result fits the
result type, and `make` is injective on such inputs; for a channel `c < N`,
`vmask(c)` is `make(2^c, 0)` and has bit `c + N` set and no other,
`hmask(c)` is `make(0, 2^c)` and has bit `c` set and no other; and no
`vmask` shares a bit with any `hmask`. -/
theorem C13_trace_mask_packing :
    ((∀ v h : Nat, v < 2 ^ 16 → h < 2 ^ 16 →
        ARCH_SSE4_1.ScoreTraits.TraceMask.make v h >>> 16 = v
        ∧ ARCH_SSE4_1.ScoreTraits.TraceMask.make v h % 2 ^ 16 = h
        ∧ ARCH_SSE4_1.ScoreTraits.TraceMask.make v h < 2 ^ 32)
      ∧ (∀ v h v2 h2 : Nat, v < 2 ^ 16 → h < 2 ^ 16 → v2 < 2 ^ 16 → h2 < 2 ^ 16 →
        ARCH_SSE4_1.ScoreTraits.TraceMask.make v h
          = ARCH_SSE4_1.ScoreTraits.TraceMask.make v2 h2 → v = v2 ∧ h = h2)
      ∧ (∀ c : Nat, c < ARCH_SSE4_1.ScoreTraits.CHANNELS →
        ARCH_SSE4_1.ScoreTraits.TraceMask.vmask c
          = ARCH_SSE4_1.ScoreTraits.TraceMask.make (2 ^ c) 0
        ∧ ARCH_SSE4_1.ScoreTraits.TraceMask.hmask c
          = ARCH_SSE4_1.ScoreTraits.TraceMask.make 0 (2 ^ c)
        ∧ (∀ k : Nat, (ARCH_SSE4_1.ScoreTraits.TraceMask.vmask c).testBit k = true
            ↔ k = c + ARCH_SSE4_1.ScoreTraits.CHANNELS)
        ∧ (∀ k : Nat, (ARCH_SSE4_1.ScoreTraits.TraceMask.hmask c).testBit k = true ↔ k = c))
      ∧ (∀ c c2 : Nat, c < ARCH_SSE4_1.ScoreTraits.CHANNELS →
        c2 < ARCH_SSE4_1.ScoreTraits.CHANNELS →
        ARCH_SSE4_1.ScoreTraits.TraceMask.vmask c
          &&& ARCH_SSE4_1.ScoreTraits.TraceMask.hmask c2 = 0))
    ∧ ((∀ v h : Nat, v < 2 ^ 32 → h < 2 ^ 32 →
        ARCH_AVX2.ScoreTraits.TraceMask.make v h >>> 32 = v
        ∧ ARCH_AVX2.ScoreTraits.TraceMask.make v h % 2 ^ 32 = h
        ∧ ARCH_AVX2.ScoreTraits.TraceMask.make v h < 2 ^ 64)
      ∧ (∀ v h v2 h2 : Nat, v < 2 ^ 32 → h < 2 ^ 32 → v2 < 2 ^ 32 → h2 < 2 ^ 32 →
        ARCH_AVX2.ScoreTraits.TraceMask.make v h
          = ARCH_AVX2.ScoreTraits.TraceMask.make v2 h2 → v = v2 ∧ h = h2)
      ∧ (∀ c : Nat, c < ARCH_AVX2.ScoreTraits.CHANNELS →
        ARCH_AVX2.ScoreTraits.TraceMask.vmask c
          = ARCH_AVX2.ScoreTraits.TraceMask.make (2 ^ c) 0
        ∧ ARCH_AVX2.ScoreTraits.TraceMask.hmask c
          = ARCH_AVX2.ScoreTraits.TraceMask.make 0 (2 ^ c)
        ∧ (∀ k : Nat, (ARCH_AVX2.ScoreTraits.TraceMask.vmask c).testBit k = true
            ↔ k = c + ARCH_AVX2.ScoreTraits.CHANNELS)
        ∧ (∀ k : Nat, (ARCH_AVX2.ScoreTraits.TraceMask.hmask c).testBit k = true ↔ k = c))
      ∧ (∀ c c2 : Nat, c < ARCH_AVX2.ScoreTraits.CHANNELS →
        c2 < ARCH_AVX2.ScoreTraits.CHANNELS →
        ARCH_AVX2.ScoreTraits.TraceMask.vmask c
          &&& ARCH_AVX2.ScoreTraits.TraceMask.hmask c2 = 0)) := by
  have e16 : (2 : Nat) ^ 16 = 65536 := by norm_num
  have e32 : (2 : Nat) ^ 32 = 4294967296 := by norm_num
  have e64 : (2 : Nat) ^ 64 = 18446744073709551616 := by norm_num
  refine ⟨⟨?_, ?_, ?_, ?_⟩, ⟨?_, ?_, ?_, ?_⟩⟩
  · intro v h hv hh
    rw [e16] at hv hh
    rw [trace_make_sse_val v h hv hh, Nat.shiftRight_eq_div_pow, e16, e32]
    omega
  · intro v h v2 h2 hv hh hv2 hh2 e
    rw [e16] at hv hh hv2 hh2
    rw [trace_make_sse_val v h hv hh, trace_make_sse_val v2 h2 hv2 hh2] at e
    omega
  · intro c hc
    have hc16 : c < 16 := hc
    have hp := two_pow_lt_of_lt c 16 hc16
    rw [e16] at hp
    rw [trace_vmask_sse_val c hc16, trace_hmask_sse_val c hc16,
      trace_make_sse_val (2 ^ c) 0 hp (by decide), trace_make_sse_val 0 (2 ^ c) (by decide) hp]
    refine ⟨?_, ?_, fun k => testBit_two_pow_iff _ k, fun k => testBit_two_pow_iff _ k⟩
    · rw [Nat.pow_add, e16]
      omega
    · omega
  · intro c c2 hc hc2
    have hc16 : c < 16 := hc
    have hc216 : c2 < 16 := hc2
    rw [trace_vmask_sse_val c hc16, trace_hmask_sse_val c2 hc216]
    exact two_pow_and_two_pow _ _ (by omega)
  · intro v h hv hh
    rw [e32] at hv hh
    rw [trace_make_avx2_val v h hv hh, Nat.shiftRight_eq_div_pow, e32, e64]
    omega
  · intro v h v2 h2 hv hh hv2 hh2 e
    rw [e32] at hv hh hv2 hh2
    rw [trace_make_avx2_val v h hv hh, trace_make_avx2_val v2 h2 hv2 hh2] at e
    omega
  · intro c hc
    have hc32 : c < 32 := hc
    have hp := two_pow_lt_of_lt c 32 hc32
    rw [e32] at hp
    rw [trace_vmask_avx2_val c hc32, trace_hmask_avx2_val c hc32,
      trace_make_avx2_val (2 ^ c) 0 hp (by decide),
      trace_make_avx2_val 0 (2 ^ c) (by decide) hp]
    refine ⟨?_, ?_, fun k => testBit_two_pow_iff _ k, fun k => testBit_two_pow_iff _ k⟩
    · rw [Nat.pow_add, e32]
      omega
    · omega
  · intro c c2 hc hc2
    have hc32 : c < 32 := hc
    have hc232 : c2 < 32 := hc2
    rw [trace_vmask_avx2_val c hc32, trace_hmask_avx2_val c2 hc232]
    exact two_pow_and_two_pow _ _ (by omega)

/-- Witness for C13: the bit planes `0x8001` and `0x00FF` packed by the
16-lane `make`, and channel 15, whose `vmask` is bit 31. -/
theorem C13_trace_mask_packing_witness :
    ARCH_SSE4_1.ScoreTraits.TraceMask.make 32769 255 >>> 16 = 32769
    ∧ ARCH_SSE4_1.ScoreTraits.TraceMask.make 32769 255 % 2 ^ 16 = 255
    ∧ ARCH_SSE4_1.ScoreTraits.TraceMask.vmask 15
        = ARCH_SSE4_1.ScoreTraits.TraceMask.make (2 ^ 15) 0
    ∧ ARCH_AVX2.ScoreTraits.TraceMask.vmask 31
        = ARCH_AVX2.ScoreTraits.TraceMask.make (2 ^ 31) 0 := by
  have h := C13_trace_mask_packing
  have h1 := h.1.1 32769 255 (by norm_num) (by norm_num)
  exact ⟨h1.1, h1.2.1, (h.1.2.2.1 15 (by decide)).1, (h.2.2.2.1 31 (by decide)).1⟩

/-! ## C14: the two variants agree on their common lanes -/

theorem movemask_bits_low_lanes (x : m256i) :
    movemask_bits 32 x % 2 ^ 16 = movemask_bits 16 (low_lanes x) := by
  apply Nat.eq_of_testBit_eq
  intro k
  rw [Nat.testBit_mod_two_pow]
  by_cases hk : k < 16
  · rw [decide_eq_true hk, Bool.true_and, movemask_bits_testBit 32 x k (by omega),
      movemask_bits_testBit 16 (low_lanes x) k hk]
    rfl
  · rw [decide_eq_false hk, Bool.false_and, movemask_bits_testBit_ge 16 _ k (by omega)]

/-- C14: for 32-lane vectors `A`, `B`, `M` and the 16-lane vectors formed from
their lanes 0..15, lanes 0..15 of the wide `A + B`, `A - B`, `max(A, B)`,
`min(A, B)`, `++A` and `blend(A, B, M)` are the narrow results on the narrowed
operands; the low 16 bits of the wide `cmp_mask(A, B)` are the narrow
`cmp_mask`; `int_score` is the same function in both variants, so the decoded
lanes agree as well. -/
theorem C14_cross_variant_consistency (A B M : ARCH_AVX2.score_vector) (s : Byte)
    (i : Fin 16) :
    (narrow_of_wide (A.operator_plus B)
        = (narrow_of_wide A).operator_plus (narrow_of_wide B)
      ∧ narrow_of_wide (A.operator_minus B)
        = (narrow_of_wide A).operator_minus (narrow_of_wide B)
      ∧ narrow_of_wide (ARCH_AVX2.max A B)
        = ARCH_SSE4_1.max (narrow_of_wide A) (narrow_of_wide B)
      ∧ narrow_of_wide (ARCH_AVX2.min A B)
        = ARCH_SSE4_1.min (narrow_of_wide A) (narrow_of_wide B)
      ∧ narrow_of_wide A.operator_inc = (narrow_of_wide A).operator_inc
      ∧ narrow_of_wide (ARCH_AVX2.blend A B M)
        = ARCH_SSE4_1.blend (narrow_of_wide A) (narrow_of_wide B) (narrow_of_wide M))
    ∧ ARCH_AVX2.cmp_mask A B % 2 ^ 16
        = ARCH_SSE4_1.cmp_mask (narrow_of_wide A) (narrow_of_wide B)
    ∧ ARCH_AVX2.ScoreTraits.int_score s = ARCH_SSE4_1.ScoreTraits.int_score s
    ∧ (ARCH_AVX2.ScoreTraits.int_score
          ((A.operator_plus B).data_ ⟨i.val, Nat.lt_trans i.isLt (by decide)⟩)
        = ARCH_SSE4_1.ScoreTraits.int_score
          (((narrow_of_wide A).operator_plus (narrow_of_wide B)).data_ i)
      ∧ ARCH_AVX2.ScoreTraits.int_score
          ((A.operator_minus B).data_ ⟨i.val, Nat.lt_trans i.isLt (by decide)⟩)
        = ARCH_SSE4_1.ScoreTraits.int_score
          (((narrow_of_wide A).operator_minus (narrow_of_wide B)).data_ i)
      ∧ ARCH_AVX2.ScoreTraits.int_score
          ((ARCH_AVX2.max A B).data_ ⟨i.val, Nat.lt_trans i.isLt (by decide)⟩)
        = ARCH_SSE4_1.ScoreTraits.int_score
          ((ARCH_SSE4_1.max (narrow_of_wide A) (narrow_of_wide B)).data_ i)
      ∧ ARCH_AVX2.ScoreTraits.int_score
          ((ARCH_AVX2.min A B).data_ ⟨i.val, Nat.lt_trans i.isLt (by decide)⟩)
        = ARCH_SSE4_1.ScoreTraits.int_score
          ((ARCH_SSE4_1.min (narrow_of_wide A) (narrow_of_wide B)).data_ i)
      ∧ ARCH_AVX2.ScoreTraits.int_score
          (A.operator_inc.data_ ⟨i.val, Nat.lt_trans i.isLt (by decide)⟩)
        = ARCH_SSE4_1.ScoreTraits.int_score ((narrow_of_wide A).operator_inc.data_ i)
      ∧ ARCH_AVX2.ScoreTraits.int_score
          ((ARCH_AVX2.blend A B M).data_ ⟨i.val, Nat.lt_trans i.isLt (by decide)⟩)
        = ARCH_SSE4_1.ScoreTraits.int_score
          ((ARCH_SSE4_1.blend (narrow_of_wide A) (narrow_of_wide B)
            (narrow_of_wide M)).data_ i)) := by
  refine ⟨⟨rfl, rfl, rfl, rfl, rfl, rfl⟩, ?_, rfl, ⟨rfl, rfl, rfl, rfl, rfl, rfl⟩⟩
  rw [cmp_mask_avx2_eq, cmp_mask_sse_eq]
  exact movemask_bits_low_lanes _

/-! ## C15: indexed lane access -/

theorem int8_mod_256 (b : Byte) : int8_of_byte b % 256 = (b.val : Int) := by
  unfold int8_of_byte
  split_ifs <;> omega

/-- C15: in both variants, for an index `i < CHANNELS` and a byte `x`,
`v.set(i, x)` leaves a vector whose `[i]` is `x` and whose other lanes are
those of `v`; `v[i]` is the byte that `v.store(ptr)` leaves at `ptr + i`, read
as an unsigned value, which is the signed lane value mod 256; and every lane
of `zero()` reads as 128. -/
theorem C15_indexed_lane_access (x : Byte) (mem : Mem) (ptr : Nat)
    (v : ARCH_SSE4_1.score_vector) (i : Nat) (hi : i < ARCH_SSE4_1.ScoreTraits.CHANNELS)
    (V : ARCH_AVX2.score_vector) (j : Nat) (hj : j < ARCH_AVX2.ScoreTraits.CHANNELS) :
    ((∃ w : ARCH_SSE4_1.score_vector, v.set i x = some w
        ∧ w.operator_index i = some (x.val : Int)
        ∧ (∀ k : Fin 16, k.val ≠ i → w.data_ k = v.data_ k)
        ∧ (∀ k : Nat, k ≠ i → w.operator_index k = v.operator_index k))
      ∧ v.operator_index i = some ((v.store mem ptr (ptr + i)).val : Int)
      ∧ v.operator_index i = some (int8_of_byte (v.data_ ⟨i, hi⟩) % 256)
      ∧ ARCH_SSE4_1.ScoreTraits.zero.operator_index i = some 128)
    ∧ ((∃ W : ARCH_AVX2.score_vector, V.set j x = some W
        ∧ W.operator_index j = some (x.val : Int)
        ∧ (∀ k : Fin 32, k.val ≠ j → W.data_ k = V.data_ k)
        ∧ (∀ k : Nat, k ≠ j → W.operator_index k = V.operator_index k))
      ∧ V.operator_index j = some ((V.store mem ptr (ptr + j)).val : Int)
      ∧ V.operator_index j = some (int8_of_byte (V.data_ ⟨j, hj⟩) % 256)
      ∧ ARCH_AVX2.ScoreTraits.zero.operator_index j = some 128) := by
  have hi16 : i < 16 := hi
  have hj32 : j < 32 := hj
  refine ⟨⟨?_, ?_, ?_, ?_⟩, ⟨?_, ?_, ?_, ?_⟩⟩
  · refine ⟨{ v with data_ := fun k => if k.val = i then x else v.data_ k }, ?_, ?_, ?_, ?_⟩
    · unfold ARCH_SSE4_1.score_vector.set
      rw [if_pos hi16]
    · unfold ARCH_SSE4_1.score_vector.operator_index
      rw [dif_pos hi16]
      simp only [if_true]
    · intro k hk
      simp only [if_neg hk]
    · intro k hk
      unfold ARCH_SSE4_1.score_vector.operator_index
      by_cases h : k < 16
      · rw [dif_pos h, dif_pos h]
        simp only [if_neg hk]
      · rw [dif_neg h, dif_neg h]
  · unfold ARCH_SSE4_1.score_vector.operator_index ARCH_SSE4_1.score_vector.store
      _mm_storeu_si128
    rw [dif_pos hi16, dif_pos ⟨by omega, by omega⟩]
    have e : (⟨ptr + i - ptr, by omega⟩ : Fin 16) = ⟨i, hi16⟩ := Fin.ext (by simp only []; omega)
    rw [e]
  · unfold ARCH_SSE4_1.score_vector.operator_index
    rw [dif_pos hi16, int8_mod_256]
  · unfold ARCH_SSE4_1.score_vector.operator_index
    rw [dif_pos hi16]
    rfl
  · refine ⟨{ V with data_ := fun k => if k.val = j then x else V.data_ k }, ?_, ?_, ?_, ?_⟩
    · unfold ARCH_AVX2.score_vector.set
      rw [if_pos hj32]
    · unfold ARCH_AVX2.score_vector.operator_index
      rw [dif_pos hj32]
      simp only [if_true]
    · intro k hk
      simp only [if_neg hk]
    · intro k hk
      unfold ARCH_AVX2.score_vector.operator_index
      by_cases h : k < 32
      · rw [dif_pos h, dif_pos h]
        simp only [if_neg hk]
      · rw [dif_neg h, dif_neg h]
  · unfold ARCH_AVX2.score_vector.operator_index ARCH_AVX2.score_vector.store
      _mm256_storeu_si256
    rw [dif_pos hj32, dif_pos ⟨by omega, by omega⟩]
    have e : (⟨ptr + j - ptr, by omega⟩ : Fin 32) = ⟨j, hj32⟩ := Fin.ext (by simp only []; omega)
    rw [e]
  · unfold ARCH_AVX2.score_vector.operator_index
    rw [dif_pos hj32, int8_mod_256]
  · unfold ARCH_AVX2.score_vector.operator_index
    rw [dif_pos hj32]
    rfl

/-- Witness for C15: lane 3 of the sentinel vector reads as 128 in the
16-lane variant, and lane 20 in the 32-lane variant. -/
theorem C15_indexed_lane_access_witness :
    3 < ARCH_SSE4_1.ScoreTraits.CHANNELS ∧ 20 < ARCH_AVX2.ScoreTraits.CHANNELS
    ∧ ARCH_SSE4_1.ScoreTraits.zero.operator_index 3 = some 128
    ∧ ARCH_AVX2.ScoreTraits.zero.operator_index 20 = some 128 := by
  have h := C15_indexed_lane_access 7 (fun _ => 0) 0 ARCH_SSE4_1.ScoreTraits.zero 3 (by decide)
    ARCH_AVX2.ScoreTraits.zero 20 (by decide)
  exact ⟨by decide, by decide, h.1.2.2.2, h.2.2.2.2⟩

/-! ## C16: the equality mask and lane masking -/

set_option maxRecDepth 100000 in
theorem and_ones_byte (c : Byte) : c &&& 255 = c := by
  revert c
  decide

set_option maxRecDepth 100000 in
theorem and_zero_byte (c : Byte) : c &&& 0 = 0 := by
  revert c
  decide

theorem and_cmpeq8 (c x y : Byte) : c &&& cmpeq8 x y = if x = y then c else 0 := by
  unfold cmpeq8
  split_ifs
  · exact and_ones_byte c
  · exact and_zero_byte c

theorem cmpeq8_int8 (x y : Byte) : int8_of_byte (cmpeq8 x y) = if x = y then -1 else 0 := by
  unfold cmpeq8
  split_ifs <;> decide

/-- C16: in both variants lane `i` of `a == b` is the byte `0xFF`, which reads
as -1, when the lanes of `a` and `b` are equal, and 0 otherwise; after
`v &= (a == b)` lane `i` of `v` is its old value where the lanes of `a` and
`b` are equal and 0 elsewhere; and after `v &= w` lane `i` of `v` is the
bitwise AND of the old lane and the lane of `w`. -/
theorem C16_eq_mask_and_masking (a b v w : ARCH_SSE4_1.score_vector) (i : Fin 16)
    (A B V W : ARCH_AVX2.score_vector) (j : Fin 32) :
    ((a.operator_eq b).data_ i = (if a.data_ i = b.data_ i then 255 else 0)
      ∧ int8_of_byte ((a.operator_eq b).data_ i) = (if a.data_ i = b.data_ i then -1 else 0)
      ∧ (v.operator_and_assign (a.operator_eq b)).data_ i
        = (if a.data_ i = b.data_ i then v.data_ i else 0)
      ∧ (v.operator_and_assign w).data_ i = v.data_ i &&& w.data_ i)
    ∧ ((A.operator_eq B).data_ j = (if A.data_ j = B.data_ j then 255 else 0)
      ∧ int8_of_byte ((A.operator_eq B).data_ j) = (if A.data_ j = B.data_ j then -1 else 0)
      ∧ (V.operator_and_assign (A.operator_eq B)).data_ j
        = (if A.data_ j = B.data_ j then V.data_ j else 0)
      ∧ (V.operator_and_assign W).data_ j = V.data_ j &&& W.data_ j) :=
  ⟨⟨rfl, cmpeq8_int8 _ _, and_cmpeq8 _ _ _, rfl⟩, ⟨rfl, cmpeq8_int8 _ _, and_cmpeq8 _ _ _, rfl⟩⟩

/-! ## C17: the increment -/

theorem adds8_one_int8 (x : Byte) :
    int8_of_byte (adds8 x 1) = Min.min (int8_of_byte x + 1) 127 := by
  have hx := int8_of_byte_range x
  have h1 : int8_of_byte 1 = 1 := by decide
  rw [adds8_int8, h1, min_def]
  unfold clamp
  split_ifs <;> omega

theorem adds8_one_fixed (x : Byte) : adds8 x 1 = x ↔ int8_of_byte x = 127 := by
  have hx := int8_of_byte_range x
  have h := adds8_one_int8 x
  rw [min_def] at h
  constructor
  · intro e
    rw [e] at h
    split_ifs at h <;> omega
  · intro e
    apply int8_of_byte_inj
    rw [h, e]
    rfl

/-- C17: in both variants, after `++v` lane `i` reads as the smaller of the
old signed lane value plus 1 and 127; the new lane is not below the old one,
it is the old lane exactly when the old lane holds 127, and a lane holding 127
does not become -128; and the vector left by `++v` is `v + score_vector(1)`. -/
theorem C17_increment_saturates (v : ARCH_SSE4_1.score_vector) (i : Fin 16)
    (V : ARCH_AVX2.score_vector) (j : Fin 32) :
    (int8_of_byte (v.operator_inc.data_ i) = Min.min (int8_of_byte (v.data_ i) + 1) 127
      ∧ int8_of_byte (v.data_ i) ≤ int8_of_byte (v.operator_inc.data_ i)
      ∧ (v.operator_inc.data_ i = v.data_ i ↔ int8_of_byte (v.data_ i) = 127)
      ∧ (int8_of_byte (v.data_ i) = 127 → int8_of_byte (v.operator_inc.data_ i) = 127)
      ∧ v.operator_inc = v.operator_plus (ARCH_SSE4_1.score_vector.ctor_int 1))
    ∧ (int8_of_byte (V.operator_inc.data_ j) = Min.min (int8_of_byte (V.data_ j) + 1) 127
      ∧ int8_of_byte (V.data_ j) ≤ int8_of_byte (V.operator_inc.data_ j)
      ∧ (V.operator_inc.data_ j = V.data_ j ↔ int8_of_byte (V.data_ j) = 127)
      ∧ (int8_of_byte (V.data_ j) = 127 → int8_of_byte (V.operator_inc.data_ j) = 127)
      ∧ V.operator_inc = V.operator_plus (ARCH_AVX2.score_vector.ctor_int 1)) := by
  have mono : ∀ x : Byte, int8_of_byte x ≤ int8_of_byte (adds8 x 1) := by
    intro x
    have hx := int8_of_byte_range x
    rw [adds8_one_int8, min_def]
    split_ifs <;> omega
  have top : ∀ x : Byte, int8_of_byte x = 127 → int8_of_byte (adds8 x 1) = 127 := by
    intro x hx
    rw [adds8_one_int8, hx]
    rfl
  exact ⟨⟨adds8_one_int8 _, mono _, adds8_one_fixed _, top _, rfl⟩,
    ⟨adds8_one_int8 _, mono _, adds8_one_fixed _, top _, rfl⟩⟩

/-- Witness for C17: the increment of the broadcast of 127 leaves 127 in lane
5 of the 16-lane variant and lane 30 of the 32-lane variant. -/
theorem C17_increment_saturates_witness :
    int8_of_byte ((ARCH_SSE4_1.score_vector.ctor_int 127).operator_inc.data_ 5) = 127
    ∧ int8_of_byte ((ARCH_AVX2.score_vector.ctor_int 127).operator_inc.data_ 30) = 127 := by
  have h := C17_increment_saturates (ARCH_SSE4_1.score_vector.ctor_int 127) 5
    (ARCH_AVX2.score_vector.ctor_int 127) 30
  exact ⟨h.1.2.2.2.1 (by decide), h.2.2.2.2.1 (by decide)⟩

/-! ## C18: row lookup with an index byte outside `0..31` -/

/-- C18: the 16-lane row lookup takes any index byte `x` in a lane. For
`x >= 128` the lane is the byte 0 whatever the table holds; for
`32 <= x <= 127` the lane is the table byte of the row at code `x mod 32`,
where the row starts at `r << 5` (in `unsigned` arithmetic, which is `r << 5`
itself for `r < 32`); two index bytes below 128 with the same bits 0..4 give
the same lane. In the 32-lane lookup an index byte `x >= 128` gives the byte 0
as well. -/
theorem C18_row_lookup_outside_domain (matrix8 : Mem) (r : Nat) (seq : m128i) (i : Fin 16)
    (matrix8_low matrix8_high : Mem) (SEQ : m256i) (j : Fin 32) :
    (128 ≤ (seq i).val → (ARCH_SSE4_1.score_vector.ctor_row matrix8 r seq).data_ i = 0)
    ∧ (32 ≤ (seq i).val → (seq i).val ≤ 127 →
        (ARCH_SSE4_1.score_vector.ctor_row matrix8 r seq).data_ i
          = matrix8 ((r <<< 5) % 4294967296 + (seq i).val % 32))
    ∧ (r < 32 → 32 ≤ (seq i).val → (seq i).val ≤ 127 →
        (ARCH_SSE4_1.score_vector.ctor_row matrix8 r seq).data_ i
          = matrix8 ((r <<< 5) + (seq i).val % 32))
    ∧ (∀ seq2 : m128i, (seq i).val < 128 → (seq2 i).val < 128 →
        (seq2 i).val % 32 = (seq i).val % 32 →
        (ARCH_SSE4_1.score_vector.ctor_row matrix8 r seq2).data_ i
          = (ARCH_SSE4_1.score_vector.ctor_row matrix8 r seq).data_ i)
    ∧ (128 ≤ (SEQ j).val →
        (ARCH_AVX2.score_vector.ctor_row matrix8_low matrix8_high r SEQ).data_ j = 0) := by
  refine ⟨?_, ?_, ?_, ?_, ?_⟩
  · intro h
    rw [ctor_row_lane_sse, if_neg (by omega)]
  · intro _ h
    rw [ctor_row_lane_sse, if_pos (by omega)]
    rfl
  · intro hr _ h
    rw [ctor_row_lane_sse, if_pos (by omega)]
    show matrix8 ((r <<< 5) % 4294967296 + (seq i).val % 32) = _
    rw [row_of_lt r hr]
  · intro seq2 h1 h2 e
    rw [ctor_row_lane_sse, ctor_row_lane_sse, if_pos h1, if_pos h2, e]
  · intro h
    show ARCH_AVX2.score_vector.s1 matrix8_low r SEQ j
        ||| ARCH_AVX2.score_vector.s2 matrix8_high r SEQ j = 0
    rw [s1_lane_avx2, s2_lane_avx2, if_neg (fun c => absurd c.1 (by omega)),
      if_neg (fun c => absurd c.1 (by omega))]
    rfl

/-- Witness for C18: in the table whose byte at index `k` is `k mod 256`, row
5, the index byte 200 gives 0 and the index byte 100 gives the byte of code
`100 mod 32 = 4`, which is 164. -/
theorem C18_row_lookup_outside_domain_witness :
    (ARCH_SSE4_1.score_vector.ctor_row (fun k => byte_of_int k) 5 (fun _ => 200)).data_ 3 = 0
    ∧ (ARCH_SSE4_1.score_vector.ctor_row (fun k => byte_of_int k) 5 (fun _ => 100)).data_ 3
        = 164 := by
  have h200 := C18_row_lookup_outside_domain (fun k => byte_of_int k) 5 (fun _ => 200) 3
    (fun _ => 0) (fun _ => 0) (fun _ => 0) 0
  have h100 := C18_row_lookup_outside_domain (fun k => byte_of_int k) 5 (fun _ => 100) 3
    (fun _ => 0) (fun _ => 0) (fun _ => 0) 0
  exact ⟨h200.1 (by decide), (h100.2.2.1 (by decide) (by decide) (by decide)).trans (by decide)⟩

/-! ## C19: addition and subtraction against maximum and minimum -/

theorem adds8_max8 (x y z : Byte) : adds8 (max8 x y) z = max8 (adds8 x z) (adds8 y z) := by
  apply int8_of_byte_inj
  have hx := int8_of_byte_range x
  have hy := int8_of_byte_range y
  have hz := int8_of_byte_range z
  rw [adds8_int8, max8_int8, max8_int8, adds8_int8, adds8_int8, max_def, max_def]
  unfold clamp
  split_ifs <;> omega

theorem adds8_min8 (x y z : Byte) : adds8 (min8 x y) z = min8 (adds8 x z) (adds8 y z) := by
  apply int8_of_byte_inj
  have hx := int8_of_byte_range x
  have hy := int8_of_byte_range y
  have hz := int8_of_byte_range z
  rw [adds8_int8, min8_int8, min8_int8, adds8_int8, adds8_int8, min_def, min_def]
  unfold clamp
  split_ifs <;> omega

theorem subs8_max8 (x y z : Byte) : subs8 (max8 x y) z = max8 (subs8 x z) (subs8 y z) := by
  apply int8_of_byte_inj
  have hx := int8_of_byte_range x
  have hy := int8_of_byte_range y
  have hz := int8_of_byte_range z
  rw [subs8_int8, max8_int8, max8_int8, subs8_int8, subs8_int8, max_def, max_def]
  unfold clamp
  split_ifs <;> omega

theorem subs8_min8 (x y z : Byte) : subs8 (min8 x y) z = min8 (subs8 x z) (subs8 y z) := by
  apply int8_of_byte_inj
  have hx := int8_of_byte_range x
  have hy := int8_of_byte_range y
  have hz := int8_of_byte_range z
  rw [subs8_int8, min8_int8, min8_int8, subs8_int8, subs8_int8, min_def, min_def]
  unfold clamp
  split_ifs <;> omega

/-- C19: in both variants, for all score vectors `a`, `b`, `c`:
`max(a, b) + c == max(a + c, b + c)`, `min(a, b) + c == min(a + c, b + c)`
and `max(a, b) - c == max(a - c, b - c)` as vectors, saturating lanes
included; `min(a, b) - c == min(a - c, b - c)` holds as well. -/
theorem C19_add_sub_distribute (a b c : ARCH_SSE4_1.score_vector)
    (A B C : ARCH_AVX2.score_vector) :
    ((ARCH_SSE4_1.max a b).operator_plus c
        = ARCH_SSE4_1.max (a.operator_plus c) (b.operator_plus c)
      ∧ (ARCH_SSE4_1.min a b).operator_plus c
        = ARCH_SSE4_1.min (a.operator_plus c) (b.operator_plus c)
      ∧ (ARCH_SSE4_1.max a b).operator_minus c
        = ARCH_SSE4_1.max (a.operator_minus c) (b.operator_minus c)
      ∧ (ARCH_SSE4_1.min a b).operator_minus c
        = ARCH_SSE4_1.min (a.operator_minus c) (b.operator_minus c))
    ∧ ((ARCH_AVX2.max A B).operator_plus C
        = ARCH_AVX2.max (A.operator_plus C) (B.operator_plus C)
      ∧ (ARCH_AVX2.min A B).operator_plus C
        = ARCH_AVX2.min (A.operator_plus C) (B.operator_plus C)
      ∧ (ARCH_AVX2.max A B).operator_minus C
        = ARCH_AVX2.max (A.operator_minus C) (B.operator_minus C)
      ∧ (ARCH_AVX2.min A B).operator_minus C
        = ARCH_AVX2.min (A.operator_minus C) (B.operator_minus C)) :=
  ⟨⟨score_vector_sse_ext _ _ (fun _ => adds8_max8 _ _ _),
    score_vector_sse_ext _ _ (fun _ => adds8_min8 _ _ _),
    score_vector_sse_ext _ _ (fun _ => subs8_max8 _ _ _),
    score_vector_sse_ext _ _ (fun _ => subs8_min8 _ _ _)⟩,
  ⟨score_vector_avx2_ext _ _ (fun _ => adds8_max8 _ _ _),
    score_vector_avx2_ext _ _ (fun _ => adds8_min8 _ _ _),
    score_vector_avx2_ext _ _ (fun _ => subs8_max8 _ _ _),
    score_vector_avx2_ext _ _ (fun _ => subs8_min8 _ _ _)⟩⟩

/-! ## C20: the sentinel and the maximum score under maximum and minimum -/

theorem max8_sentinel (x : Byte) : max8 x (byte_of_int SCHAR_MIN) = x := by
  apply int8_of_byte_inj
  have hx := int8_of_byte_range x
  have h0 : int8_of_byte (byte_of_int SCHAR_MIN) = -128 := by decide
  rw [max8_int8, h0, max_def]
  split_ifs <;> omega

theorem min8_sentinel (x : Byte) : min8 x (byte_of_int SCHAR_MIN) = byte_of_int SCHAR_MIN := by
  apply int8_of_byte_inj
  have hx := int8_of_byte_range x
  have h0 : int8_of_byte (byte_of_int SCHAR_MIN) = -128 := by decide
  rw [min8_int8, h0, min_def]
  split_ifs <;> omega

theorem max8_top (x : Byte) : max8 x (byte_of_int SCHAR_MAX) = byte_of_int SCHAR_MAX := by
  apply int8_of_byte_inj
  have hx := int8_of_byte_range x
  have h0 : int8_of_byte (byte_of_int SCHAR_MAX) = 127 := by decide
  rw [max8_int8, h0, max_def]
  split_ifs <;> omega

theorem min8_top (x : Byte) : min8 x (byte_of_int SCHAR_MAX) = x := by
  apply int8_of_byte_inj
  have hx := int8_of_byte_range x
  have h0 : int8_of_byte (byte_of_int SCHAR_MAX) = 127 := by decide
  rw [min8_int8, h0, min_def]
  split_ifs <;> omega

theorem min8_max8_bounds (x y : Byte) :
    int8_of_byte (min8 x y) ≤ int8_of_byte x ∧ int8_of_byte (min8 x y) ≤ int8_of_byte y
    ∧ int8_of_byte x ≤ int8_of_byte (max8 x y) ∧ int8_of_byte y ≤ int8_of_byte (max8 x y)
    ∧ (max8 x y = x ∨ max8 x y = y) ∧ (min8 x y = x ∨ min8 x y = y) := by
  refine ⟨?_, ?_, ?_, ?_, ?_, ?_⟩
  · rw [min8_int8]
    exact min_le_left _ _
  · rw [min8_int8]
    exact min_le_right _ _
  · rw [max8_int8]
    exact le_max_left _ _
  · rw [max8_int8]
    exact le_max_right _ _
  · unfold max8
    split_ifs
    · exact Or.inl rfl
    · exact Or.inr rfl
  · unfold min8
    split_ifs
    · exact Or.inl rfl
    · exact Or.inr rfl

/-- C20: in both variants, for every score vector `v`: `max(v, zero()) == v`,
`min(v, zero()) == zero()`, `max(v, score_vector(max_score()))` is
`score_vector(max_score())` and `min(v, score_vector(max_score())) == v`; and
for all `a`, `b` and every lane, the lane of `min(a, b)` is at most the lanes
of `a` and of `b`, these are at most the lane of `max(a, b)`, and the lanes of
`max(a, b)` and of `min(a, b)` are each the lane of `a` or the lane of `b`. -/
theorem C20_sentinel_and_top_bounds (v a b : ARCH_SSE4_1.score_vector) (i : Fin 16)
    (V A B : ARCH_AVX2.score_vector) (j : Fin 32) :
    (ARCH_SSE4_1.max v ARCH_SSE4_1.ScoreTraits.zero = v
      ∧ ARCH_SSE4_1.min v ARCH_SSE4_1.ScoreTraits.zero = ARCH_SSE4_1.ScoreTraits.zero
      ∧ ARCH_SSE4_1.max v (ARCH_SSE4_1.score_vector.ctor_int8 ARCH_SSE4_1.ScoreTraits.max_score)
        = ARCH_SSE4_1.score_vector.ctor_int8 ARCH_SSE4_1.ScoreTraits.max_score
      ∧ ARCH_SSE4_1.min v (ARCH_SSE4_1.score_vector.ctor_int8 ARCH_SSE4_1.ScoreTraits.max_score)
        = v
      ∧ int8_of_byte ((ARCH_SSE4_1.min a b).data_ i) ≤ int8_of_byte (a.data_ i)
      ∧ int8_of_byte ((ARCH_SSE4_1.min a b).data_ i) ≤ int8_of_byte (b.data_ i)
      ∧ int8_of_byte (a.data_ i) ≤ int8_of_byte ((ARCH_SSE4_1.max a b).data_ i)
      ∧ int8_of_byte (b.data_ i) ≤ int8_of_byte ((ARCH_SSE4_1.max a b).data_ i)
      ∧ ((ARCH_SSE4_1.max a b).data_ i = a.data_ i ∨ (ARCH_SSE4_1.max a b).data_ i = b.data_ i)
      ∧ ((ARCH_SSE4_1.min a b).data_ i = a.data_ i
        ∨ (ARCH_SSE4_1.min a b).data_ i = b.data_ i))
    ∧ (ARCH_AVX2.max V ARCH_AVX2.ScoreTraits.zero = V
      ∧ ARCH_AVX2.min V ARCH_AVX2.ScoreTraits.zero = ARCH_AVX2.ScoreTraits.zero
      ∧ ARCH_AVX2.max V (ARCH_AVX2.score_vector.ctor_int8 ARCH_AVX2.ScoreTraits.max_score)
        = ARCH_AVX2.score_vector.ctor_int8 ARCH_AVX2.ScoreTraits.max_score
      ∧ ARCH_AVX2.min V (ARCH_AVX2.score_vector.ctor_int8 ARCH_AVX2.ScoreTraits.max_score) = V
      ∧ int8_of_byte ((ARCH_AVX2.min A B).data_ j) ≤ int8_of_byte (A.data_ j)
      ∧ int8_of_byte ((ARCH_AVX2.min A B).data_ j) ≤ int8_of_byte (B.data_ j)
      ∧ int8_of_byte (A.data_ j) ≤ int8_of_byte ((ARCH_AVX2.max A B).data_ j)
      ∧ int8_of_byte (B.data_ j) ≤ int8_of_byte ((ARCH_AVX2.max A B).data_ j)
      ∧ ((ARCH_AVX2.max A B).data_ j = A.data_ j ∨ (ARCH_AVX2.max A B).data_ j = B.data_ j)
      ∧ ((ARCH_AVX2.min A B).data_ j = A.data_ j
        ∨ (ARCH_AVX2.min A B).data_ j = B.data_ j)) := by
  have hs := min8_max8_bounds (a.data_ i) (b.data_ i)
  have hw := min8_max8_bounds (A.data_ j) (B.data_ j)
  exact ⟨⟨score_vector_sse_ext _ _ (fun _ => max8_sentinel _),
      score_vector_sse_ext _ _ (fun _ => min8_sentinel _),
      score_vector_sse_ext _ _ (fun _ => max8_top _),
      score_vector_sse_ext _ _ (fun _ => min8_top _),
      hs.1, hs.2.1, hs.2.2.1, hs.2.2.2.1, hs.2.2.2.2.1, hs.2.2.2.2.2⟩,
    ⟨score_vector_avx2_ext _ _ (fun _ => max8_sentinel _),
      score_vector_avx2_ext _ _ (fun _ => min8_sentinel _),
      score_vector_avx2_ext _ _ (fun _ => max8_top _),
      score_vector_avx2_ext _ _ (fun _ => min8_top _),
      hw.1, hw.2.1, hw.2.2.1, hw.2.2.2.1, hw.2.2.2.2.1, hw.2.2.2.2.2⟩⟩
